import Mathlib

/-!
Verification of the modal (vim-style) input state machine and command
dispatch of the tui-db terminal database browser.

Strings of the Rust source are modelled as lists of characters
(push = append, pop = dropLast), machine integers (usize) as natural
numbers with explicit saturating subtraction where the source uses
saturating_sub, and hash maps as association lists (insert replaces).
Database drivers, configuration persistence and the clipboard are the
external collaborators of the design (spec section 6): their effects are
parameters of the model (the Env structure below), never invoked by the
pure routing paths the theorems are about.
-/

set_option maxHeartbeats 4000000
set_option maxRecDepth 2000

namespace TuiDb

/-- Converts a Lean string literal to the list-of-characters representation
used for the Rust String type throughout the model. -/
def strL (s : String) : List Char := s.toList

/-- Key codes of the normalized key-event abstraction consumed by the core
(the subset of crossterm KeyCode the source matches on). -/
inductive KeyCode where
  | char (c : Char)
  | left
  | right
  | up
  | down
  | esc
  | enter
  | backspace
  | tab
  | backTab
  | other
deriving DecidableEq, Repr

/-- A key event: a key code plus whether the Control modifier is held. -/
structure KeyEvent where
  code : KeyCode
  ctrl : Bool
deriving DecidableEq, Repr

/-- A plain (unmodified) character key event. -/
def key (c : Char) : KeyEvent := ⟨KeyCode.char c, false⟩

/-- The four modal states of src/vim/mode.rs (enum VimMode). -/
inductive VimMode where
  | Normal
  | Insert
  | Visual
  | Command
deriving DecidableEq, Repr

/-- The abstract command values emitted by the input state machine
(enum VimCommand of src/vim/mode.rs). -/
inductive VimCommand where
  | MoveLeft (n : Nat)
  | MoveRight (n : Nat)
  | MoveUp (n : Nat)
  | MoveDown (n : Nat)
  | GotoTop
  | GotoBottom
  | GotoLineStart
  | GotoLineEnd
  | NextWord
  | PrevWord
  | EnterInsertMode
  | EnterInsertModeAfter
  | InsertAtLineStart
  | InsertAtLineEnd
  | OpenLineBelow
  | OpenLineAbove
  | ExitInsertMode
  | EnterVisualMode
  | ExitVisualMode
  | EnterCommandMode
  | CancelCommand
  | InsertChar (c : Char)
  | InsertNewline
  | InsertTab
  | Backspace
  | DeleteChar
  | Delete
  | DeleteSelection
  | Yank
  | YankSelection
  | Paste
  | Undo
  | Redo
  | ExtendLeft
  | ExtendRight
  | ExtendUp
  | ExtendDown
  | StartSearch
  | NextMatch
  | PrevMatch
  | NextPane
  | PrevPane
  | Activate
  | ExecuteQueryUnderCursor
  | ExecuteAllQueries
  | EnterEditMode
  | ExitEditMode
  | MoveColumnLeft
  | MoveColumnRight
  | SaveCellEdit
  | SaveAllEdits
  | EnterInsertRowMode
  | ExitInsertRowMode
  | SaveInsertField
  | SaveInsertRow
  | DeleteConnection
  | OpenConnectionManager
  | CloseConnectionManager
  | ConnectionManagerAction (c : Char)
  | SwitchToDataTab
  | SwitchToSchemaTab
  | SwitchToIndexesTab
  | DiscardChanges
  | RefreshData
  | ExecuteCommand (cmd : List Char)
  | Quit
deriving Repr

/-- An injective signature of a command: its constructor tag together with
its numeric, character and string payloads (defaults when absent). Used
for a decidable equality whose term stays shallow. -/
def VimCommand.sig : VimCommand → Nat × Nat × Char × List Char
  | VimCommand.MoveLeft n => (0, n, 'a', [])
  | VimCommand.MoveRight n => (1, n, 'a', [])
  | VimCommand.MoveUp n => (2, n, 'a', [])
  | VimCommand.MoveDown n => (3, n, 'a', [])
  | VimCommand.GotoTop => (4, 0, 'a', [])
  | VimCommand.GotoBottom => (5, 0, 'a', [])
  | VimCommand.GotoLineStart => (6, 0, 'a', [])
  | VimCommand.GotoLineEnd => (7, 0, 'a', [])
  | VimCommand.NextWord => (8, 0, 'a', [])
  | VimCommand.PrevWord => (9, 0, 'a', [])
  | VimCommand.EnterInsertMode => (10, 0, 'a', [])
  | VimCommand.EnterInsertModeAfter => (11, 0, 'a', [])
  | VimCommand.InsertAtLineStart => (12, 0, 'a', [])
  | VimCommand.InsertAtLineEnd => (13, 0, 'a', [])
  | VimCommand.OpenLineBelow => (14, 0, 'a', [])
  | VimCommand.OpenLineAbove => (15, 0, 'a', [])
  | VimCommand.ExitInsertMode => (16, 0, 'a', [])
  | VimCommand.EnterVisualMode => (17, 0, 'a', [])
  | VimCommand.ExitVisualMode => (18, 0, 'a', [])
  | VimCommand.EnterCommandMode => (19, 0, 'a', [])
  | VimCommand.CancelCommand => (20, 0, 'a', [])
  | VimCommand.InsertChar c => (21, 0, c, [])
  | VimCommand.InsertNewline => (22, 0, 'a', [])
  | VimCommand.InsertTab => (23, 0, 'a', [])
  | VimCommand.Backspace => (24, 0, 'a', [])
  | VimCommand.DeleteChar => (25, 0, 'a', [])
  | VimCommand.Delete => (26, 0, 'a', [])
  | VimCommand.DeleteSelection => (27, 0, 'a', [])
  | VimCommand.Yank => (28, 0, 'a', [])
  | VimCommand.YankSelection => (29, 0, 'a', [])
  | VimCommand.Paste => (30, 0, 'a', [])
  | VimCommand.Undo => (31, 0, 'a', [])
  | VimCommand.Redo => (32, 0, 'a', [])
  | VimCommand.ExtendLeft => (33, 0, 'a', [])
  | VimCommand.ExtendRight => (34, 0, 'a', [])
  | VimCommand.ExtendUp => (35, 0, 'a', [])
  | VimCommand.ExtendDown => (36, 0, 'a', [])
  | VimCommand.StartSearch => (37, 0, 'a', [])
  | VimCommand.NextMatch => (38, 0, 'a', [])
  | VimCommand.PrevMatch => (39, 0, 'a', [])
  | VimCommand.NextPane => (40, 0, 'a', [])
  | VimCommand.PrevPane => (41, 0, 'a', [])
  | VimCommand.Activate => (42, 0, 'a', [])
  | VimCommand.ExecuteQueryUnderCursor => (43, 0, 'a', [])
  | VimCommand.ExecuteAllQueries => (44, 0, 'a', [])
  | VimCommand.EnterEditMode => (45, 0, 'a', [])
  | VimCommand.ExitEditMode => (46, 0, 'a', [])
  | VimCommand.MoveColumnLeft => (47, 0, 'a', [])
  | VimCommand.MoveColumnRight => (48, 0, 'a', [])
  | VimCommand.SaveCellEdit => (49, 0, 'a', [])
  | VimCommand.SaveAllEdits => (50, 0, 'a', [])
  | VimCommand.EnterInsertRowMode => (51, 0, 'a', [])
  | VimCommand.ExitInsertRowMode => (52, 0, 'a', [])
  | VimCommand.SaveInsertField => (53, 0, 'a', [])
  | VimCommand.SaveInsertRow => (54, 0, 'a', [])
  | VimCommand.DeleteConnection => (55, 0, 'a', [])
  | VimCommand.OpenConnectionManager => (56, 0, 'a', [])
  | VimCommand.CloseConnectionManager => (57, 0, 'a', [])
  | VimCommand.ConnectionManagerAction c => (58, 0, c, [])
  | VimCommand.SwitchToDataTab => (59, 0, 'a', [])
  | VimCommand.SwitchToSchemaTab => (60, 0, 'a', [])
  | VimCommand.SwitchToIndexesTab => (61, 0, 'a', [])
  | VimCommand.DiscardChanges => (62, 0, 'a', [])
  | VimCommand.RefreshData => (63, 0, 'a', [])
  | VimCommand.ExecuteCommand cmd => (64, 0, 'a', cmd)
  | VimCommand.Quit => (65, 0, 'a', [])

/-- The left inverse of the signature: recovers the command from its tag
and payloads. -/
def VimCommand.unsig : Nat × Nat × Char × List Char → VimCommand
  | (0, n, _, _) => VimCommand.MoveLeft n
  | (1, n, _, _) => VimCommand.MoveRight n
  | (2, n, _, _) => VimCommand.MoveUp n
  | (3, n, _, _) => VimCommand.MoveDown n
  | (4, _, _, _) => VimCommand.GotoTop
  | (5, _, _, _) => VimCommand.GotoBottom
  | (6, _, _, _) => VimCommand.GotoLineStart
  | (7, _, _, _) => VimCommand.GotoLineEnd
  | (8, _, _, _) => VimCommand.NextWord
  | (9, _, _, _) => VimCommand.PrevWord
  | (10, _, _, _) => VimCommand.EnterInsertMode
  | (11, _, _, _) => VimCommand.EnterInsertModeAfter
  | (12, _, _, _) => VimCommand.InsertAtLineStart
  | (13, _, _, _) => VimCommand.InsertAtLineEnd
  | (14, _, _, _) => VimCommand.OpenLineBelow
  | (15, _, _, _) => VimCommand.OpenLineAbove
  | (16, _, _, _) => VimCommand.ExitInsertMode
  | (17, _, _, _) => VimCommand.EnterVisualMode
  | (18, _, _, _) => VimCommand.ExitVisualMode
  | (19, _, _, _) => VimCommand.EnterCommandMode
  | (20, _, _, _) => VimCommand.CancelCommand
  | (21, _, c, _) => VimCommand.InsertChar c
  | (22, _, _, _) => VimCommand.InsertNewline
  | (23, _, _, _) => VimCommand.InsertTab
  | (24, _, _, _) => VimCommand.Backspace
  | (25, _, _, _) => VimCommand.DeleteChar
  | (26, _, _, _) => VimCommand.Delete
  | (27, _, _, _) => VimCommand.DeleteSelection
  | (28, _, _, _) => VimCommand.Yank
  | (29, _, _, _) => VimCommand.YankSelection
  | (30, _, _, _) => VimCommand.Paste
  | (31, _, _, _) => VimCommand.Undo
  | (32, _, _, _) => VimCommand.Redo
  | (33, _, _, _) => VimCommand.ExtendLeft
  | (34, _, _, _) => VimCommand.ExtendRight
  | (35, _, _, _) => VimCommand.ExtendUp
  | (36, _, _, _) => VimCommand.ExtendDown
  | (37, _, _, _) => VimCommand.StartSearch
  | (38, _, _, _) => VimCommand.NextMatch
  | (39, _, _, _) => VimCommand.PrevMatch
  | (40, _, _, _) => VimCommand.NextPane
  | (41, _, _, _) => VimCommand.PrevPane
  | (42, _, _, _) => VimCommand.Activate
  | (43, _, _, _) => VimCommand.ExecuteQueryUnderCursor
  | (44, _, _, _) => VimCommand.ExecuteAllQueries
  | (45, _, _, _) => VimCommand.EnterEditMode
  | (46, _, _, _) => VimCommand.ExitEditMode
  | (47, _, _, _) => VimCommand.MoveColumnLeft
  | (48, _, _, _) => VimCommand.MoveColumnRight
  | (49, _, _, _) => VimCommand.SaveCellEdit
  | (50, _, _, _) => VimCommand.SaveAllEdits
  | (51, _, _, _) => VimCommand.EnterInsertRowMode
  | (52, _, _, _) => VimCommand.ExitInsertRowMode
  | (53, _, _, _) => VimCommand.SaveInsertField
  | (54, _, _, _) => VimCommand.SaveInsertRow
  | (55, _, _, _) => VimCommand.DeleteConnection
  | (56, _, _, _) => VimCommand.OpenConnectionManager
  | (57, _, _, _) => VimCommand.CloseConnectionManager
  | (58, _, c, _) => VimCommand.ConnectionManagerAction c
  | (59, _, _, _) => VimCommand.SwitchToDataTab
  | (60, _, _, _) => VimCommand.SwitchToSchemaTab
  | (61, _, _, _) => VimCommand.SwitchToIndexesTab
  | (62, _, _, _) => VimCommand.DiscardChanges
  | (63, _, _, _) => VimCommand.RefreshData
  | (64, _, _, cmd) => VimCommand.ExecuteCommand cmd
  | _ => VimCommand.Quit

instance : DecidableEq VimCommand := fun a b =>
  decidable_of_iff (VimCommand.sig a = VimCommand.sig b)
    (by
      constructor
      · intro h
        have h2 := congrArg VimCommand.unsig h
        have ha : VimCommand.unsig (VimCommand.sig a) = a := by cases a <;> rfl
        have hb : VimCommand.unsig (VimCommand.sig b) = b := by cases b <;> rfl
        rw [ha, hb] at h2
        exact h2
      · intro h
        rw [h])

/-- The input state machine state (struct VimState of src/vim/mode.rs). -/
structure VimState where
  mode : VimMode
  command_buffer : List Char
  register : Option (List Char)
  count : Option Nat
deriving DecidableEq, Repr

/-- VimState::default / VimState::new. -/
def VimState.new : VimState :=
  { mode := VimMode.Normal, command_buffer := [], register := none, count := none }

/-- VimState::reset_state: clears the command buffer and the pending count. -/
def VimState.reset_state (s : VimState) : VimState :=
  { s with command_buffer := [], count := none }

/-- VimState::enter_insert_mode. -/
def VimState.enter_insert_mode (s : VimState) : VimState :=
  ({ s with mode := VimMode.Insert }).reset_state

/-- VimState::enter_normal_mode. -/
def VimState.enter_normal_mode (s : VimState) : VimState :=
  ({ s with mode := VimMode.Normal }).reset_state

/-- VimState::enter_visual_mode. -/
def VimState.enter_visual_mode (s : VimState) : VimState :=
  ({ s with mode := VimMode.Visual }).reset_state

/-- VimState::enter_command_mode: switches mode and clears only the command
buffer (the pending count is left untouched by this transition). -/
def VimState.enter_command_mode (s : VimState) : VimState :=
  { s with mode := VimMode.Command, command_buffer := [] }

/-- VimState::append_to_command. -/
def VimState.append_to_command (s : VimState) (c : Char) : VimState :=
  if s.mode = VimMode.Command then
    { s with command_buffer := s.command_buffer ++ [c] }
  else s

/-- VimState::backspace_command. -/
def VimState.backspace_command (s : VimState) : VimState :=
  if s.mode = VimMode.Command then
    { s with command_buffer := s.command_buffer.dropLast }
  else s

/-- VimState::set_count: appends a decimal digit to the pending count. -/
def VimState.set_count (s : VimState) (n : Nat) : VimState :=
  { s with count := some (match s.count with
      | some existing => existing * 10 + n
      | none => n) }

/-- VimState::get_count: reads the pending count with default 1 (and does
not modify the state). -/
def VimState.get_count (s : VimState) : Nat := s.count.getD 1

/-- Character dispatch of VimState::handle_normal_mode, in the source order
of the match arms (the digit catch-all comes after all specific
characters, so 1-9 and a 0 with a pending count accumulate the count). -/
def VimState.handle_normal_char (s : VimState) (c : Char) : VimState × Option VimCommand :=
  match c with
  | 'h' => (s, some (VimCommand.MoveLeft s.get_count))
  | 'j' => (s, some (VimCommand.MoveDown s.get_count))
  | 'k' => (s, some (VimCommand.MoveUp s.get_count))
  | 'l' => (s, some (VimCommand.MoveRight s.get_count))
  | 'e' => (s, some VimCommand.EnterEditMode)
  | 'i' => (s.enter_insert_mode, some VimCommand.EnterInsertMode)
  | 'a' => (s.enter_insert_mode, some VimCommand.EnterInsertModeAfter)
  | 'I' => (s.enter_insert_mode, some VimCommand.InsertAtLineStart)
  | 'A' => (s.enter_insert_mode, some VimCommand.InsertAtLineEnd)
  | 'o' => (s.enter_insert_mode, some VimCommand.OpenLineBelow)
  | 'O' => (s.enter_insert_mode, some VimCommand.OpenLineAbove)
  | 'v' => (s.enter_visual_mode, some VimCommand.EnterVisualMode)
  | ':' => (s.enter_command_mode, some VimCommand.EnterCommandMode)
  | 'x' => (s, some VimCommand.DeleteChar)
  | 'X' => (s, some VimCommand.DeleteConnection)
  | 'C' => (s, some VimCommand.OpenConnectionManager)
  | 'd' => (s, some VimCommand.Delete)
  | 'y' => (s, some VimCommand.Yank)
  | 'p' => (s, some VimCommand.Paste)
  | 'u' => (s, some VimCommand.Undo)
  | 'r' => (s, some VimCommand.Redo)
  | 'R' => (s, some VimCommand.RefreshData)
  | 'g' =>
    if s.command_buffer.getLast? = some 'g' then
      ({ s with command_buffer := [] }, some VimCommand.GotoTop)
    else
      ({ s with command_buffer := s.command_buffer ++ ['g'] }, none)
  | 'G' => (s, some VimCommand.GotoBottom)
  | '0' =>
    if s.count = none then (s, some VimCommand.GotoLineStart)
    else (s.set_count 0, none)
  | '$' => (s, some VimCommand.GotoLineEnd)
  | 'w' => (s, some VimCommand.NextWord)
  | 'b' => (s, some VimCommand.PrevWord)
  | '/' =>
    let t := s.enter_command_mode
    ({ t with command_buffer := t.command_buffer ++ ['/'] }, some VimCommand.StartSearch)
  | 'n' => (s, some VimCommand.NextMatch)
  | 'N' => (s, some VimCommand.PrevMatch)
  | _ => if c.isDigit then (s.set_count (c.toNat - 48), none) else (s, none)

/-- VimState::handle_normal_mode: Control-modified keys bypass the count
and prefix logic entirely; otherwise keys dispatch per the match arms. -/
def VimState.handle_normal_mode (s : VimState) (k : KeyEvent) : VimState × Option VimCommand :=
  if k.ctrl then
    match k.code with
    | KeyCode.char c =>
      if c = 'c' then (s, some VimCommand.Quit)
      else if c = 'e' then (s, some VimCommand.ExecuteQueryUnderCursor)
      else if c = 'r' then (s, some VimCommand.ExecuteAllQueries)
      else if c = 's' then (s, some VimCommand.SaveAllEdits)
      else if c = 'n' then (s, some VimCommand.EnterInsertRowMode)
      else (s, none)
    | _ => (s, none)
  else
    match k.code with
    | KeyCode.char c => s.handle_normal_char c
    | KeyCode.left => (s, some (VimCommand.MoveLeft s.get_count))
    | KeyCode.down => (s, some (VimCommand.MoveDown s.get_count))
    | KeyCode.up => (s, some (VimCommand.MoveUp s.get_count))
    | KeyCode.right => (s, some (VimCommand.MoveRight s.get_count))
    | KeyCode.tab => (s, some VimCommand.NextPane)
    | KeyCode.backTab => (s, some VimCommand.PrevPane)
    | KeyCode.enter => (s, some VimCommand.Activate)
    | _ => (s, none)

/-- VimState::handle_insert_mode. -/
def VimState.handle_insert_mode (s : VimState) (k : KeyEvent) : VimState × Option VimCommand :=
  match k.code with
  | KeyCode.esc => (s.enter_normal_mode, some VimCommand.ExitInsertMode)
  | KeyCode.char c => (s, some (VimCommand.InsertChar c))
  | KeyCode.backspace => (s, some VimCommand.Backspace)
  | KeyCode.enter => (s, some VimCommand.InsertNewline)
  | KeyCode.tab => (s, some VimCommand.InsertTab)
  | KeyCode.left => (s, some (VimCommand.MoveLeft 1))
  | KeyCode.right => (s, some (VimCommand.MoveRight 1))
  | KeyCode.up => (s, some (VimCommand.MoveUp 1))
  | KeyCode.down => (s, some (VimCommand.MoveDown 1))
  | _ => (s, none)

/-- VimState::handle_visual_mode. -/
def VimState.handle_visual_mode (s : VimState) (k : KeyEvent) : VimState × Option VimCommand :=
  match k.code with
  | KeyCode.esc => (s.enter_normal_mode, some VimCommand.ExitVisualMode)
  | KeyCode.char c =>
    if c = 'h' then (s, some VimCommand.ExtendLeft)
    else if c = 'j' then (s, some VimCommand.ExtendDown)
    else if c = 'k' then (s, some VimCommand.ExtendUp)
    else if c = 'l' then (s, some VimCommand.ExtendRight)
    else if c = 'y' then (s.enter_normal_mode, some VimCommand.YankSelection)
    else if c = 'd' then (s.enter_normal_mode, some VimCommand.DeleteSelection)
    else (s, none)
  | KeyCode.left => (s, some VimCommand.ExtendLeft)
  | KeyCode.down => (s, some VimCommand.ExtendDown)
  | KeyCode.up => (s, some VimCommand.ExtendUp)
  | KeyCode.right => (s, some VimCommand.ExtendRight)
  | _ => (s, none)

/-- VimState::handle_command_mode. -/
def VimState.handle_command_mode (s : VimState) (k : KeyEvent) : VimState × Option VimCommand :=
  match k.code with
  | KeyCode.esc => (s.enter_normal_mode, some VimCommand.CancelCommand)
  | KeyCode.enter =>
    let cmd := s.command_buffer
    (s.enter_normal_mode, some (VimCommand.ExecuteCommand cmd))
  | KeyCode.char c => (s.append_to_command c, none)
  | KeyCode.backspace =>
    let t := s.backspace_command
    if t.command_buffer = [] then (t.enter_normal_mode, some VimCommand.CancelCommand)
    else (t, none)
  | _ => (s, none)

/-- VimState::handle_key: mode dispatch. -/
def VimState.handle_key (s : VimState) (k : KeyEvent) : VimState × Option VimCommand :=
  match s.mode with
  | VimMode.Normal => s.handle_normal_mode k
  | VimMode.Insert => s.handle_insert_mode k
  | VimMode.Visual => s.handle_visual_mode k
  | VimMode.Command => s.handle_command_mode k

/-- Folds a whole key sequence through the state machine, discarding the
emitted commands (used to state reachability invariants). -/
def VimState.process_keys (keys : List KeyEvent) (s : VimState) : VimState :=
  keys.foldl (fun t k => (t.handle_key k).1) s

/-- Keys that do not themselves clear the normal-mode command buffer: any
Control-modified key, any non-character key, and any character other than
the mode-entry keys, the command/search keys and the g prefix key itself. -/
def keeps_pending_g (k : KeyEvent) : Bool :=
  k.ctrl || (match k.code with
    | KeyCode.char c => !(['i', 'a', 'I', 'A', 'o', 'O', 'v', ':', '/', 'g'].contains c)
    | _ => true)

/-- The reachable-buffer invariant of the state machine: whenever the mode
is not Command, the command buffer is empty or holds the single pending
g prefix. -/
def bufferInv (s : VimState) : Prop :=
  s.mode ≠ VimMode.Command → s.command_buffer = [] ∨ s.command_buffer = ['g']

/-- Association-list insert with replace semantics, modelling
HashMap::insert of the source. -/
def alInsert {α β : Type} [DecidableEq α] (m : List (α × β)) (k : α) (v : β) :
    List (α × β) :=
  match m with
  | [] => [(k, v)]
  | (k0, v0) :: rest =>
    if k0 = k then (k, v) :: rest else (k0, v0) :: alInsert rest k v

/-- Association-list lookup, modelling HashMap::get of the source. -/
def alLookup {α β : Type} [DecidableEq α] (m : List (α × β)) (k : α) : Option β :=
  match m with
  | [] => none
  | (k0, v0) :: rest => if k0 = k then some v0 else alLookup rest k

/-- str::splitn(2, sep): the part before the first separator, and the rest
after it when the separator occurs. -/
def splitOnce (sep : Char) : List Char → List Char × Option (List Char)
  | [] => ([], none)
  | c :: rest =>
    if c = sep then ([], some rest)
    else
      let r := splitOnce sep rest
      (c :: r.1, r.2)

/-- str::to_lowercase (per-character lowering). -/
def lowerStr (s : List Char) : List Char := s.map Char.toLower

/-- str::contains(pattern): substring containment. -/
def containsSub (hay pat : List Char) : Bool :=
  if pat.isPrefixOf hay then true
  else
    match hay with
    | [] => false
    | _ :: rest => containsSub rest pat

/-- str::split_whitespace accumulator. -/
def splitWsAux : List Char → List Char → List (List Char)
  | [], acc => if acc = [] then [] else [acc.reverse]
  | c :: rest, acc =>
    if c.isWhitespace then
      (if acc = [] then splitWsAux rest [] else acc.reverse :: splitWsAux rest [])
    else splitWsAux rest (c :: acc)

/-- str::split_whitespace: the non-empty whitespace-separated tokens. -/
def splitWs (cs : List Char) : List (List Char) := splitWsAux cs []

/-- The characters of a path after the last slash (Path::file_name /
split('/').next_back() as used for display-name generation). -/
def afterLastSlash (cs : List Char) : List Char :=
  ((cs.reverse.takeWhile (fun c => !(c = '/'))).reverse)

/-- enum DatabaseType of src/db/connection.rs. -/
inductive DatabaseType where
  | SQLite
  | MySQL
  | MariaDB
deriving DecidableEq, Repr

/-- struct TableInfo of src/db/connection.rs. -/
structure TableInfo where
  name : List Char
  row_count : Option Nat
deriving DecidableEq, Repr

/-- struct ConnectionInfo of src/db/connection.rs. -/
structure ConnectionInfo where
  id : Nat
  name : List Char
  db_type : DatabaseType
  connection_string : List Char
deriving DecidableEq, Repr

/-- struct QueryResult of src/db/connection.rs. -/
structure QueryResult where
  columns : List (List Char)
  rows : List (List (List Char))
  rows_affected : Option Nat
  execution_time_ms : Nat
deriving DecidableEq, Repr

/-- enum TabMode of src/ui/results_viewer.rs. -/
inductive TabMode where
  | Data
  | Schema
  | Indexes
deriving DecidableEq, Repr

/-- struct ColumnInfo of src/ui/results_viewer.rs. -/
structure ColumnInfo where
  name : List Char
  data_type : List Char
  nullable : List Char
  default_value : List Char
  extra : List Char
deriving DecidableEq, Repr

/-- struct ResultsViewer of src/ui/results_viewer.rs; the ratatui
TableState values are modelled by their selected index. -/
structure ResultsViewer where
  result : Option QueryResult
  table_state : Option Nat
  scroll_offset : Nat
  horizontal_scroll : Nat
  focused : Bool
  edit_mode : Bool
  insert_mode : Bool
  selected_column : Nat
  modified_cells : List ((Nat × Nat) × List Char)
  insert_row : List (Nat × List Char)
  table_name : Option (List Char)
  edit_buffer : List Char
  visible_columns : Nat
  active_tab : TabMode
  schema_info : Option (List Char)
  indexes_info : Option (List (List Char))
  schema_columns : List ColumnInfo
  schema_table_state : Option Nat
  schema_edit_mode : Bool
  schema_insert_mode : Bool
  schema_selected_column : Nat
  schema_edit_buffer : List Char
  schema_modified_cells : List ((Nat × Nat) × List Char)
  schema_insert_row : List (Nat × List Char)
  status_message : Option (List Char)
deriving DecidableEq, Repr

/-- ResultsViewer::new. -/
def ResultsViewer.new : ResultsViewer where
  result := none
  table_state := some 0
  scroll_offset := 0
  horizontal_scroll := 0
  focused := false
  edit_mode := false
  insert_mode := false
  selected_column := 0
  modified_cells := []
  insert_row := []
  table_name := none
  edit_buffer := []
  visible_columns := 10
  active_tab := TabMode.Data
  schema_info := none
  indexes_info := none
  schema_columns := []
  schema_table_state := some 0
  schema_edit_mode := false
  schema_insert_mode := false
  schema_selected_column := 0
  schema_edit_buffer := []
  schema_modified_cells := []
  schema_insert_row := []
  status_message := none

/-- ResultsViewer::set_result. -/
def ResultsViewer.set_result (rv : ResultsViewer) (result : QueryResult) : ResultsViewer :=
  { rv with
    result := some result
    scroll_offset := 0
    horizontal_scroll := 0
    table_state := some 0 }

/-- ResultsViewer::clear. -/
def ResultsViewer.clear (rv : ResultsViewer) : ResultsViewer :=
  { rv with result := none, scroll_offset := 0, table_state := some 0 }

/-- ResultsViewer::clear_status_message. -/
def ResultsViewer.clear_status_message (rv : ResultsViewer) : ResultsViewer :=
  { rv with status_message := none }

/-- ResultsViewer::set_status_message. -/
def ResultsViewer.set_status_message (rv : ResultsViewer) (msg : List Char) : ResultsViewer :=
  { rv with status_message := some msg }

/-- ResultsViewer::move_up with a repeat count: the selection moves up by
the whole count in one saturating subtraction. -/
def ResultsViewer.move_up (count : Nat) (rv : ResultsViewer) : ResultsViewer :=
  let rv := rv.clear_status_message
  match rv.result with
  | none => rv
  | some res =>
    if res.rows = [] then rv
    else
      let selected := rv.table_state.getD 0
      { rv with table_state := some (selected - count) }

/-- ResultsViewer::move_down with a repeat count: the selection moves down
by the whole count, clamped to the last row. -/
def ResultsViewer.move_down (count : Nat) (rv : ResultsViewer) : ResultsViewer :=
  let rv := rv.clear_status_message
  match rv.result with
  | none => rv
  | some res =>
    if res.rows = [] then rv
    else
      let selected := rv.table_state.getD 0
      { rv with table_state := some (min (selected + count) (res.rows.length - 1)) }

/-- ResultsViewer::goto_top. -/
def ResultsViewer.goto_top (rv : ResultsViewer) : ResultsViewer :=
  { rv with table_state := some 0, scroll_offset := 0 }

/-- ResultsViewer::goto_bottom. -/
def ResultsViewer.goto_bottom (rv : ResultsViewer) : ResultsViewer :=
  match rv.result with
  | none => rv
  | some res =>
    if res.rows = [] then rv
    else { rv with table_state := some (res.rows.length - 1) }

/-- ResultsViewer::get_current_cell_value: the modified value when the
cell was edited, otherwise the original cell content. -/
def ResultsViewer.get_current_cell_value (rv : ResultsViewer) : Option (List Char) :=
  match rv.table_state with
  | none => none
  | some row =>
    let col := rv.selected_column
    match alLookup rv.modified_cells (row, col) with
    | some modified => some modified
    | none =>
      match rv.result with
      | none => none
      | some res => (res.rows.get? row).bind (fun r => r.get? col)

/-- ResultsViewer::enter_edit_mode: raises the flag, resets the column
pointer and seeds the edit buffer with the current cell value when the
cell has one. -/
def ResultsViewer.enter_edit_mode (rv : ResultsViewer) : ResultsViewer :=
  let rv := { rv with edit_mode := true, selected_column := 0 }
  match rv.get_current_cell_value with
  | some v => { rv with edit_buffer := v }
  | none => rv

/-- ResultsViewer::exit_edit_mode. -/
def ResultsViewer.exit_edit_mode (rv : ResultsViewer) : ResultsViewer :=
  { rv with edit_mode := false, edit_buffer := [] }

/-- ResultsViewer::enter_insert_mode (row-insert sub-mode). -/
def ResultsViewer.enter_insert_mode (rv : ResultsViewer) : ResultsViewer :=
  { rv with
    insert_mode := true
    selected_column := 0
    insert_row := []
    edit_buffer := [] }

/-- ResultsViewer::exit_insert_mode. -/
def ResultsViewer.exit_insert_mode (rv : ResultsViewer) : ResultsViewer :=
  { rv with insert_mode := false, insert_row := [], edit_buffer := [] }

/-- ResultsViewer::save_insert_field. -/
def ResultsViewer.save_insert_field (rv : ResultsViewer) : ResultsViewer :=
  { rv with insert_row := alInsert rv.insert_row rv.selected_column rv.edit_buffer }

/-- ResultsViewer::move_column_left. -/
def ResultsViewer.move_column_left (rv : ResultsViewer) : ResultsViewer :=
  if rv.selected_column > 0 then
    let rv := { rv with selected_column := rv.selected_column - 1 }
    let rv :=
      if rv.selected_column < rv.horizontal_scroll then
        { rv with horizontal_scroll := rv.selected_column }
      else rv
    if rv.insert_mode then
      { rv with edit_buffer := (alLookup rv.insert_row rv.selected_column).getD [] }
    else
      match rv.get_current_cell_value with
      | some v => { rv with edit_buffer := v }
      | none => rv
  else rv

/-- ResultsViewer::move_column_right. -/
def ResultsViewer.move_column_right (rv : ResultsViewer) : ResultsViewer :=
  match rv.result with
  | none => rv
  | some res =>
    if rv.selected_column < res.columns.length - 1 then
      let rv := { rv with selected_column := rv.selected_column + 1 }
      let visible_end := rv.horizontal_scroll + rv.visible_columns
      let rv :=
        if rv.selected_column ≥ visible_end then
          { rv with horizontal_scroll := rv.selected_column - (rv.visible_columns - 1) }
        else rv
      if rv.insert_mode then
        { rv with edit_buffer := (alLookup rv.insert_row rv.selected_column).getD [] }
      else
        match rv.get_current_cell_value with
        | some v => { rv with edit_buffer := v }
        | none => rv
    else rv

/-- ResultsViewer::edit_insert_char. -/
def ResultsViewer.edit_insert_char (rv : ResultsViewer) (c : Char) : ResultsViewer :=
  { rv with edit_buffer := rv.edit_buffer ++ [c] }

/-- ResultsViewer::edit_backspace. -/
def ResultsViewer.edit_backspace (rv : ResultsViewer) : ResultsViewer :=
  { rv with edit_buffer := rv.edit_buffer.dropLast }

/-- ResultsViewer::save_cell_edit: commits the edit buffer into the
modification map at the selected row and column. -/
def ResultsViewer.save_cell_edit (rv : ResultsViewer) : ResultsViewer :=
  let row := rv.table_state.getD 0
  let col := rv.selected_column
  { rv with modified_cells := alInsert rv.modified_cells (row, col) rv.edit_buffer }

/-- ResultsViewer::set_table_name. -/
def ResultsViewer.set_table_name (rv : ResultsViewer) (name : List Char) : ResultsViewer :=
  { rv with table_name := some name }

/-- ResultsViewer::has_modifications. -/
def ResultsViewer.has_modifications (rv : ResultsViewer) : Bool :=
  !(rv.modified_cells = [])

/-- ResultsViewer::clear_modifications. -/
def ResultsViewer.clear_modifications (rv : ResultsViewer) : ResultsViewer :=
  { rv with modified_cells := [] }

/-- ResultsViewer::has_insert_data. -/
def ResultsViewer.has_insert_data (rv : ResultsViewer) : Bool :=
  !(rv.insert_row = [])

/-- ResultsViewer::clear_insert_data. -/
def ResultsViewer.clear_insert_data (rv : ResultsViewer) : ResultsViewer :=
  { rv with insert_row := [] }

/-- ResultsViewer::discard_all_changes. -/
def ResultsViewer.discard_all_changes (rv : ResultsViewer) : ResultsViewer :=
  let rv :=
    { rv with
      modified_cells := []
      insert_row := []
      edit_buffer := [] }
  let rv := if rv.edit_mode then rv.exit_edit_mode else rv
  if rv.insert_mode then rv.exit_insert_mode else rv

/-- ResultsViewer::has_any_changes. -/
def ResultsViewer.has_any_changes (rv : ResultsViewer) : Bool :=
  !(rv.modified_cells = []) || !(rv.insert_row = []) ||
    !(rv.schema_modified_cells = []) || !(rv.schema_insert_row = [])

/-- ResultsViewer::switch_to_data_tab. -/
def ResultsViewer.switch_to_data_tab (rv : ResultsViewer) : ResultsViewer :=
  { rv with active_tab := TabMode.Data }

/-- ResultsViewer::switch_to_schema_tab. -/
def ResultsViewer.switch_to_schema_tab (rv : ResultsViewer) : ResultsViewer :=
  { rv with active_tab := TabMode.Schema }

/-- ResultsViewer::switch_to_indexes_tab. -/
def ResultsViewer.switch_to_indexes_tab (rv : ResultsViewer) : ResultsViewer :=
  { rv with active_tab := TabMode.Indexes }

/-- ResultsViewer::get_schema_cell_value. -/
def ResultsViewer.get_schema_cell_value (rv : ResultsViewer) (row col : Nat) : List Char :=
  match alLookup rv.schema_modified_cells (row, col) with
  | some modified => modified
  | none =>
    match rv.schema_columns.get? row with
    | some info =>
      if col = 0 then info.name
      else if col = 1 then info.data_type
      else if col = 2 then info.nullable
      else if col = 3 then info.default_value
      else if col = 4 then info.extra
      else []
    | none => []

/-- ResultsViewer::enter_schema_edit_mode. -/
def ResultsViewer.enter_schema_edit_mode (rv : ResultsViewer) : ResultsViewer :=
  if !(rv.schema_columns = []) then
    let rv := { rv with schema_edit_mode := true }
    let selected_row := rv.schema_table_state.getD 0
    let buf := rv.get_schema_cell_value selected_row rv.schema_selected_column
    { rv with schema_edit_buffer := buf }
  else rv

/-- ResultsViewer::exit_schema_edit_mode. -/
def ResultsViewer.exit_schema_edit_mode (rv : ResultsViewer) : ResultsViewer :=
  { rv with schema_edit_mode := false, schema_edit_buffer := [] }

/-- ResultsViewer::enter_schema_insert_mode. -/
def ResultsViewer.enter_schema_insert_mode (rv : ResultsViewer) : ResultsViewer :=
  { rv with
    schema_insert_mode := true
    schema_selected_column := 0
    schema_edit_buffer := [] }

/-- ResultsViewer::exit_schema_insert_mode. -/
def ResultsViewer.exit_schema_insert_mode (rv : ResultsViewer) : ResultsViewer :=
  { rv with
    schema_insert_mode := false
    schema_insert_row := []
    schema_edit_buffer := [] }

/-- ResultsViewer::save_schema_cell_edit. -/
def ResultsViewer.save_schema_cell_edit (rv : ResultsViewer) : ResultsViewer :=
  let selected_row := rv.schema_table_state.getD 0
  let cells :=
    alInsert rv.schema_modified_cells (selected_row, rv.schema_selected_column)
      rv.schema_edit_buffer
  { rv with schema_modified_cells := cells }

/-- ResultsViewer::schema_move_column_left (auto-saves before moving). -/
def ResultsViewer.schema_move_column_left (rv : ResultsViewer) : ResultsViewer :=
  if rv.schema_selected_column > 0 then
    let rv := rv.save_schema_cell_edit
    let rv := { rv with schema_selected_column := rv.schema_selected_column - 1 }
    let selected_row := rv.schema_table_state.getD 0
    let buf := rv.get_schema_cell_value selected_row rv.schema_selected_column
    { rv with schema_edit_buffer := buf }
  else rv

/-- ResultsViewer::schema_move_column_right (auto-saves before moving). -/
def ResultsViewer.schema_move_column_right (rv : ResultsViewer) : ResultsViewer :=
  if rv.schema_selected_column < 4 then
    let rv := rv.save_schema_cell_edit
    let rv := { rv with schema_selected_column := rv.schema_selected_column + 1 }
    let selected_row := rv.schema_table_state.getD 0
    let buf := rv.get_schema_cell_value selected_row rv.schema_selected_column
    { rv with schema_edit_buffer := buf }
  else rv

/-- ResultsViewer::schema_insert_char. -/
def ResultsViewer.schema_insert_char (rv : ResultsViewer) (c : Char) : ResultsViewer :=
  { rv with schema_edit_buffer := rv.schema_edit_buffer ++ [c] }

/-- ResultsViewer::schema_backspace. -/
def ResultsViewer.schema_backspace (rv : ResultsViewer) : ResultsViewer :=
  { rv with schema_edit_buffer := rv.schema_edit_buffer.dropLast }

/-- ResultsViewer::save_schema_insert_field. -/
def ResultsViewer.save_schema_insert_field (rv : ResultsViewer) : ResultsViewer :=
  { rv with
    schema_insert_row :=
      alInsert rv.schema_insert_row rv.schema_selected_column rv.schema_edit_buffer
    schema_edit_buffer := [] }

/-- ResultsViewer::discard_schema_changes. -/
def ResultsViewer.discard_schema_changes (rv : ResultsViewer) : ResultsViewer :=
  let rv :=
    { rv with
      schema_modified_cells := []
      schema_insert_row := []
      schema_edit_buffer := [] }
  let rv := if rv.schema_edit_mode then rv.exit_schema_edit_mode else rv
  if rv.schema_insert_mode then rv.exit_schema_insert_mode else rv

/-- ResultsViewer::schema_move_up. -/
def ResultsViewer.schema_move_up (rv : ResultsViewer) : ResultsViewer :=
  let selected := rv.schema_table_state.getD 0
  if selected > 0 then { rv with schema_table_state := some (selected - 1) }
  else rv

/-- ResultsViewer::schema_move_down. -/
def ResultsViewer.schema_move_down (rv : ResultsViewer) : ResultsViewer :=
  if !(rv.schema_columns = []) then
    let selected := rv.schema_table_state.getD 0
    if selected < rv.schema_columns.length - 1 then
      { rv with schema_table_state := some (selected + 1) }
    else rv
  else rv

/-- ResultsViewer::set_schema_info. -/
def ResultsViewer.set_schema_info (rv : ResultsViewer) (schema : List Char) : ResultsViewer :=
  { rv with schema_info := some schema }

/-- ResultsViewer::set_schema_columns. -/
def ResultsViewer.set_schema_columns (rv : ResultsViewer) (columns : List ColumnInfo) :
    ResultsViewer :=
  { rv with schema_columns := columns, schema_table_state := some 0 }

/-- ResultsViewer::set_indexes_info. -/
def ResultsViewer.set_indexes_info (rv : ResultsViewer) (indexes : List (List Char)) :
    ResultsViewer :=
  { rv with indexes_info := some indexes }

/-- struct QueryEditor of src/ui/query_editor.rs. -/
structure QueryEditor where
  content : List (List Char)
  cursor_line : Nat
  cursor_col : Nat
  focused : Bool
  visual_start : Option (Nat × Nat)
  scroll_offset : Nat
deriving DecidableEq, Repr

/-- QueryEditor::new. -/
def QueryEditor.new : QueryEditor where
  content := [[]]
  cursor_line := 0
  cursor_col := 0
  focused := false
  visual_start := none
  scroll_offset := 0

/-- The line of the editor at an index (Rust indexes content directly; the
model totalises out-of-range reads to the empty line). -/
def QueryEditor.line (qe : QueryEditor) (i : Nat) : List Char :=
  (qe.content.get? i).getD []

/-- QueryEditor::clear. -/
def QueryEditor.clear (qe : QueryEditor) : QueryEditor :=
  { qe with content := [[]], cursor_line := 0, cursor_col := 0, scroll_offset := 0 }

/-- QueryEditor::insert_char. -/
def QueryEditor.insert_char (qe : QueryEditor) (c : Char) : QueryEditor :=
  let qe :=
    if qe.cursor_line ≥ qe.content.length then { qe with content := qe.content ++ [[]] }
    else qe
  let ln := qe.line qe.cursor_line
  let newLine := ln.take qe.cursor_col ++ [c] ++ ln.drop qe.cursor_col
  { qe with
    content := qe.content.set qe.cursor_line newLine
    cursor_col := qe.cursor_col + 1 }

/-- QueryEditor::insert_newline. -/
def QueryEditor.insert_newline (qe : QueryEditor) : QueryEditor :=
  let qe :=
    if qe.cursor_line ≥ qe.content.length then { qe with content := qe.content ++ [[]] }
    else qe
  let current := qe.line qe.cursor_line
  let after := current.drop qe.cursor_col
  let content := qe.content.set qe.cursor_line (current.take qe.cursor_col)
  let content := content.take (qe.cursor_line + 1) ++ [after] ++
    content.drop (qe.cursor_line + 1)
  { qe with content := content, cursor_line := qe.cursor_line + 1, cursor_col := 0 }

/-- QueryEditor::backspace. -/
def QueryEditor.backspace (qe : QueryEditor) : QueryEditor :=
  if qe.cursor_col > 0 then
    let ln := qe.line qe.cursor_line
    let newLine := ln.take (qe.cursor_col - 1) ++ ln.drop qe.cursor_col
    { qe with
      content := qe.content.set qe.cursor_line newLine
      cursor_col := qe.cursor_col - 1 }
  else if qe.cursor_line > 0 then
    let current := qe.line qe.cursor_line
    let content := qe.content.take qe.cursor_line ++ qe.content.drop (qe.cursor_line + 1)
    let nl := qe.cursor_line - 1
    let prev := (content.get? nl).getD []
    { qe with
      content := content.set nl (prev ++ current)
      cursor_line := nl
      cursor_col := prev.length }
  else qe

/-- QueryEditor::delete_char. -/
def QueryEditor.delete_char (qe : QueryEditor) : QueryEditor :=
  let ln := qe.line qe.cursor_line
  if qe.cursor_col < ln.length then
    let newLine := ln.take qe.cursor_col ++ ln.drop (qe.cursor_col + 1)
    { qe with content := qe.content.set qe.cursor_line newLine }
  else if qe.cursor_line < qe.content.length - 1 then
    let nextLine := qe.line (qe.cursor_line + 1)
    let content := qe.content.take (qe.cursor_line + 1) ++ qe.content.drop (qe.cursor_line + 2)
    { qe with content := content.set qe.cursor_line (ln ++ nextLine) }
  else qe

/-- One step of QueryEditor::move_left. -/
def QueryEditor.move_left_step (qe : QueryEditor) : QueryEditor :=
  if qe.cursor_col > 0 then { qe with cursor_col := qe.cursor_col - 1 }
  else if qe.cursor_line > 0 then
    let nl := qe.cursor_line - 1
    { qe with cursor_line := nl, cursor_col := (qe.line nl).length }
  else qe

/-- QueryEditor::move_left: the per-step move repeated count times. -/
def QueryEditor.move_left (count : Nat) (qe : QueryEditor) : QueryEditor :=
  QueryEditor.move_left_step^[count] qe

/-- One step of QueryEditor::move_right. -/
def QueryEditor.move_right_step (qe : QueryEditor) : QueryEditor :=
  if qe.cursor_col < (qe.line qe.cursor_line).length then
    { qe with cursor_col := qe.cursor_col + 1 }
  else if qe.cursor_line < qe.content.length - 1 then
    { qe with cursor_line := qe.cursor_line + 1, cursor_col := 0 }
  else qe

/-- QueryEditor::move_right: the per-step move repeated count times. -/
def QueryEditor.move_right (count : Nat) (qe : QueryEditor) : QueryEditor :=
  QueryEditor.move_right_step^[count] qe

/-- One step of QueryEditor::move_up. -/
def QueryEditor.move_up_step (qe : QueryEditor) : QueryEditor :=
  if qe.cursor_line > 0 then
    let nl := qe.cursor_line - 1
    { qe with cursor_line := nl, cursor_col := min qe.cursor_col (qe.line nl).length }
  else qe

/-- QueryEditor::move_up: the per-step move repeated count times. -/
def QueryEditor.move_up (count : Nat) (qe : QueryEditor) : QueryEditor :=
  QueryEditor.move_up_step^[count] qe

/-- One step of QueryEditor::move_down. -/
def QueryEditor.move_down_step (qe : QueryEditor) : QueryEditor :=
  if qe.cursor_line < qe.content.length - 1 then
    let nl := qe.cursor_line + 1
    { qe with cursor_line := nl, cursor_col := min qe.cursor_col (qe.line nl).length }
  else qe

/-- QueryEditor::move_down: the per-step move repeated count times. -/
def QueryEditor.move_down (count : Nat) (qe : QueryEditor) : QueryEditor :=
  QueryEditor.move_down_step^[count] qe

/-- QueryEditor::goto_line_start. -/
def QueryEditor.goto_line_start (qe : QueryEditor) : QueryEditor :=
  { qe with cursor_col := 0 }

/-- QueryEditor::goto_line_end. -/
def QueryEditor.goto_line_end (qe : QueryEditor) : QueryEditor :=
  { qe with cursor_col := (qe.line qe.cursor_line).length }

/-- QueryEditor::goto_top. -/
def QueryEditor.goto_top (qe : QueryEditor) : QueryEditor :=
  { qe with cursor_line := 0, cursor_col := 0, scroll_offset := 0 }

/-- QueryEditor::goto_bottom. -/
def QueryEditor.goto_bottom (qe : QueryEditor) : QueryEditor :=
  let nl := qe.content.length - 1
  { qe with cursor_line := nl, cursor_col := (qe.line nl).length }

/-- QueryEditor::start_visual_mode. -/
def QueryEditor.start_visual_mode (qe : QueryEditor) : QueryEditor :=
  { qe with visual_start := some (qe.cursor_line, qe.cursor_col) }

/-- QueryEditor::exit_visual_mode. -/
def QueryEditor.exit_visual_mode (qe : QueryEditor) : QueryEditor :=
  { qe with visual_start := none }

/-- A slice of a line between two column positions. -/
def lineSlice (ln : List Char) (a b : Nat) : List Char := (ln.take b).drop a

/-- QueryEditor::get_selection: the text between the visual anchor and the
cursor, in document order. -/
def QueryEditor.get_selection (qe : QueryEditor) : Option (List Char) :=
  match qe.visual_start with
  | none => none
  | some (sl, sc) =>
    let el := qe.cursor_line
    let ec := qe.cursor_col
    let se := if (sl, sc) ≤ (el, ec) then ((sl, sc), (el, ec)) else ((el, ec), (sl, sc))
    let st := se.1
    let en := se.2
    if st.1 = en.1 then some (lineSlice (qe.line st.1) st.2 en.2)
    else
      let firstPart := (qe.line st.1).drop st.2
      let midLines := ((List.range (en.1 - (st.1 + 1))).map
        (fun i => '\n' :: qe.line (st.1 + 1 + i))).flatten
      some (firstPart ++ midLines ++ '\n' :: (qe.line en.1).take en.2)

/-- QueryEditor::get_query: the lines joined by newlines. -/
def QueryEditor.get_query (qe : QueryEditor) : List Char :=
  List.intercalate ['\n'] qe.content

/-- struct DatabaseBrowser of src/ui/database_browser.rs; the ratatui
ListState is modelled by its selected index. -/
structure DatabaseBrowser where
  connections : List ConnectionInfo
  tables : List TableInfo
  selected_connection : Option Nat
  selected_table : Option Nat
  list_state : Option Nat
  focused : Bool
  current_database : Option (List Char)
  viewing_tables : Bool
  search_mode : Bool
  search_query : List Char
deriving DecidableEq, Repr

/-- DatabaseBrowser::new. -/
def DatabaseBrowser.new : DatabaseBrowser where
  connections := []
  tables := []
  selected_connection := none
  selected_table := none
  list_state := some 0
  focused := true
  current_database := none
  viewing_tables := false
  search_mode := false
  search_query := []

/-- DatabaseBrowser::add_connection. -/
def DatabaseBrowser.add_connection (db : DatabaseBrowser) (conn : ConnectionInfo) :
    DatabaseBrowser :=
  { db with connections := db.connections ++ [conn] }

/-- DatabaseBrowser::set_tables: stores the tables, infers whether they
are tables (row counts present) or databases, and initialises the table
selection when absent. -/
def DatabaseBrowser.set_tables (db : DatabaseBrowser) (tables : List TableInfo) :
    DatabaseBrowser :=
  let has_tables := !(tables = [])
  let db := { db with
    viewing_tables := has_tables && tables.any (fun t => t.row_count.isSome)
    tables := tables }
  if has_tables && db.selected_table = none then
    { db with selected_table := some 0, list_state := some 0 }
  else db

/-- DatabaseBrowser::set_current_database. -/
def DatabaseBrowser.set_current_database (db : DatabaseBrowser)
    (name : Option (List Char)) : DatabaseBrowser :=
  { db with current_database := name }

/-- DatabaseBrowser::go_back_to_databases. -/
def DatabaseBrowser.go_back_to_databases (db : DatabaseBrowser) : DatabaseBrowser :=
  { db with current_database := none, viewing_tables := false, list_state := some 0 }

/-- DatabaseBrowser::get_filtered_items: the indices of connections and
tables whose lowercased names contain the lowercased search query. -/
def DatabaseBrowser.get_filtered_items (db : DatabaseBrowser) : List Nat × List Nat :=
  let searchLower := lowerStr db.search_query
  let fc :=
    if db.search_query = [] then List.range db.connections.length
    else (List.range db.connections.length).filter (fun i =>
      match db.connections.get? i with
      | some c => containsSub (lowerStr c.name) searchLower
      | none => false)
  let ft :=
    if db.search_query = [] then List.range db.tables.length
    else (List.range db.tables.length).filter (fun i =>
      match db.tables.get? i with
      | some t => containsSub (lowerStr t.name) searchLower
      | none => false)
  (fc, ft)

/-- DatabaseBrowser::get_total_filtered_items. -/
def DatabaseBrowser.get_total_filtered_items (db : DatabaseBrowser) : Nat :=
  let fi := db.get_filtered_items
  fi.1.length + (if db.selected_connection.isSome then fi.2.length else 0)

/-- DatabaseBrowser::update_selection (used after connection removal). -/
def DatabaseBrowser.update_selection (db : DatabaseBrowser) (index : Nat) :
    DatabaseBrowser :=
  if index < db.connections.length then
    { db with selected_connection := some index, selected_table := none }
  else
    let table_idx := index - db.connections.length
    if table_idx < db.tables.length then { db with selected_table := some table_idx }
    else db

/-- DatabaseBrowser::update_selection_filtered. -/
def DatabaseBrowser.update_selection_filtered (db : DatabaseBrowser)
    (filtered_index : Nat) : DatabaseBrowser :=
  let fi := db.get_filtered_items
  if fi.1 = [] ∧ fi.2 = [] then db
  else if h : filtered_index < fi.1.length then
    { db with
      selected_connection := some (fi.1.get ⟨filtered_index, h⟩)
      selected_table := none }
  else if db.selected_connection.isSome then
    let table_offset := filtered_index - fi.1.length
    match fi.2.get? table_offset with
    | some actual => { db with selected_table := some actual }
    | none => db
  else db

/-- One step of DatabaseBrowser::move_up (wraps around the filtered list). -/
def DatabaseBrowser.move_up (db : DatabaseBrowser) : DatabaseBrowser :=
  let total := db.get_total_filtered_items
  if total = 0 then db
  else
    let current := db.list_state.getD 0
    let next := if current = 0 then total - 1 else current - 1
    ({ db with list_state := some next }).update_selection_filtered next

/-- One step of DatabaseBrowser::move_down (wraps around the filtered list). -/
def DatabaseBrowser.move_down (db : DatabaseBrowser) : DatabaseBrowser :=
  let total := db.get_total_filtered_items
  if total = 0 then db
  else
    let current := db.list_state.getD 0
    let next := if current ≥ total - 1 then 0 else current + 1
    ({ db with list_state := some next }).update_selection_filtered next

/-- DatabaseBrowser::get_selected_table. -/
def DatabaseBrowser.get_selected_table (db : DatabaseBrowser) : Option TableInfo :=
  db.selected_table.bind (fun idx => db.tables.get? idx)

/-- DatabaseBrowser::get_selected_connection. -/
def DatabaseBrowser.get_selected_connection (db : DatabaseBrowser) : Option ConnectionInfo :=
  db.selected_connection.bind (fun idx => db.connections.get? idx)

/-- DatabaseBrowser::remove_connection (the removed value is discarded by
the caller in the source, so only the state effect is modelled). -/
def DatabaseBrowser.remove_connection (db : DatabaseBrowser) (id : Nat) : DatabaseBrowser :=
  match db.connections.findIdx? (fun c => c.id = id) with
  | none => db
  | some pos =>
    let db := { db with connections := db.connections.eraseIdx pos }
    let db :=
      if db.selected_connection = some pos then
        { db with tables := [], selected_table := none, selected_connection := none }
      else db
    let total := db.connections.length + db.tables.length
    if total > 0 then
      let current := db.list_state.getD 0
      let next := if current ≥ total then total - 1 else current
      ({ db with list_state := some next }).update_selection next
    else { db with list_state := some 0 }

/-- DatabaseBrowser::enter_search_mode. -/
def DatabaseBrowser.enter_search_mode (db : DatabaseBrowser) : DatabaseBrowser :=
  { db with search_mode := true, search_query := [], list_state := some 0 }

/-- DatabaseBrowser::exit_search_mode (the query stays active as a filter). -/
def DatabaseBrowser.exit_search_mode (db : DatabaseBrowser) : DatabaseBrowser :=
  { db with search_mode := false }

/-- DatabaseBrowser::search_insert_char. -/
def DatabaseBrowser.search_insert_char (db : DatabaseBrowser) (c : Char) : DatabaseBrowser :=
  let db := { db with search_query := db.search_query ++ [c], list_state := some 0 }
  db.update_selection_filtered 0

/-- DatabaseBrowser::search_backspace. -/
def DatabaseBrowser.search_backspace (db : DatabaseBrowser) : DatabaseBrowser :=
  let db := { db with search_query := db.search_query.dropLast, list_state := some 0 }
  db.update_selection_filtered 0

/-- DatabaseBrowser::clear_search. -/
def DatabaseBrowser.clear_search (db : DatabaseBrowser) : DatabaseBrowser :=
  let db := { db with search_query := [], search_mode := false, list_state := some 0 }
  if !(db.connections = []) then db.update_selection 0 else db

/-- enum ConnectionManagerMode of src/ui/connection_manager.rs. -/
inductive ConnectionManagerMode where
  | List
  | Add
  | Edit (idx : Nat)
  | Test
deriving DecidableEq, Repr

/-- enum FormField of src/ui/connection_manager.rs. -/
inductive FormField where
  | Name
  | Type
  | ConnectionString
  | Username
  | Password
  | Host
  | Port
  | Database
deriving DecidableEq, Repr

/-- struct ConnectionForm of src/ui/connection_manager.rs. -/
structure ConnectionForm where
  name : List Char
  db_type : DatabaseType
  connection_string : List Char
  username : List Char
  password : List Char
  host : List Char
  port : List Char
  database : List Char
  active_field : FormField
deriving DecidableEq, Repr

/-- ConnectionForm::default. -/
def ConnectionForm.default : ConnectionForm where
  name := []
  db_type := DatabaseType.SQLite
  connection_string := []
  username := []
  password := []
  host := strL "localhost"
  port := strL "3306"
  database := []
  active_field := FormField.Name

/-- The user-facing result and error messages the connection manager can
display; their display strings are rendering concerns. -/
inductive CmMsg where
  | success
  | connError
  | connectFailed
  | nameRequired
  | filePathRequired
  | usernameRequired
  | hostRequired
  | portRequired
deriving DecidableEq, Repr

/-- struct ConnectionManager of src/ui/connection_manager.rs. -/
structure ConnectionManager where
  visible : Bool
  mode : ConnectionManagerMode
  form : ConnectionForm
  list_state : Option Nat
  test_result : Option CmMsg
deriving DecidableEq, Repr

/-- ConnectionManager::new. -/
def ConnectionManager.new : ConnectionManager where
  visible := false
  mode := ConnectionManagerMode.List
  form := ConnectionForm.default
  list_state := some 0
  test_result := none

/-- ConnectionManager::show. -/
def ConnectionManager.show (cm : ConnectionManager) : ConnectionManager :=
  { cm with visible := true, mode := ConnectionManagerMode.List }

/-- ConnectionManager::hide. -/
def ConnectionManager.hide (cm : ConnectionManager) : ConnectionManager :=
  { cm with visible := false, test_result := none }

/-- ConnectionManager::show_add_form. -/
def ConnectionManager.show_add_form (cm : ConnectionManager) : ConnectionManager :=
  { cm with
    mode := ConnectionManagerMode.Add
    form := ConnectionForm.default
    test_result := none }

/-- ConnectionManager::parse_connection_string: decomposes a mysql url of
the shape user:pass at host:port slash database into the form fields. -/
def ConnectionManager.parse_connection_string (cm : ConnectionManager)
    (cs : List Char) : ConnectionManager :=
  if (strL "mysql://").isPrefixOf cs then
    let stripped := cs.drop (strL "mysql://").length
    let credAt := splitOnce '@' stripped
    let userPass := splitOnce ':' credAt.1
    let cm := { cm with form := { cm.form with username := userPass.1 } }
    let cm :=
      match userPass.2 with
      | some p => { cm with form := { cm.form with password := p } }
      | none => cm
    match credAt.2 with
    | none => cm
    | some host_db =>
      let hostDb := splitOnce '/' host_db
      let hostPort := splitOnce ':' hostDb.1
      let cm := { cm with form := { cm.form with host := hostPort.1 } }
      let cm :=
        match hostPort.2 with
        | some p => { cm with form := { cm.form with port := p } }
        | none => cm
      match hostDb.2 with
      | some d => { cm with form := { cm.form with database := d } }
      | none => cm
  else cm

/-- ConnectionManager::show_edit_form (parses mysql connection strings to
populate the individual fields). -/
def ConnectionManager.show_edit_form (cm : ConnectionManager) (index : Nat)
    (name : List Char) (db_type : DatabaseType) (connection_string : List Char) :
    ConnectionManager :=
  let cm := { cm with
    mode := ConnectionManagerMode.Edit index
    form := { ConnectionForm.default with
      name := name
      db_type := db_type
      connection_string := connection_string } }
  let cm :=
    if db_type = DatabaseType.MySQL ∨ db_type = DatabaseType.MariaDB then
      cm.parse_connection_string connection_string
    else cm
  { cm with test_result := none }

/-- ConnectionManager::show_edit_form_detailed. -/
def ConnectionManager.show_edit_form_detailed (cm : ConnectionManager) (index : Nat)
    (name : List Char) (db_type : DatabaseType) (connection_string : List Char)
    (username password host port database : Option (List Char)) : ConnectionManager :=
  { cm with
    mode := ConnectionManagerMode.Edit index
    form := {
      name := name
      db_type := db_type
      connection_string := connection_string
      username := username.getD []
      password := password.getD []
      host := host.getD (strL "localhost")
      port := port.getD (strL "3306")
      database := database.getD []
      active_field := FormField.Name }
    test_result := none }

/-- ConnectionManager::next_field. -/
def ConnectionManager.next_field (cm : ConnectionManager) : ConnectionManager :=
  let f :=
    match cm.form.db_type with
    | DatabaseType.SQLite =>
      match cm.form.active_field with
      | FormField.Name => FormField.Type
      | FormField.Type => FormField.ConnectionString
      | FormField.ConnectionString => FormField.Name
      | _ => FormField.Name
    | _ =>
      match cm.form.active_field with
      | FormField.Name => FormField.Type
      | FormField.Type => FormField.Host
      | FormField.Host => FormField.Port
      | FormField.Port => FormField.Username
      | FormField.Username => FormField.Password
      | FormField.Password => FormField.Database
      | FormField.Database => FormField.Name
      | _ => FormField.Name
  { cm with form := { cm.form with active_field := f } }

/-- ConnectionManager::prev_field. -/
def ConnectionManager.prev_field (cm : ConnectionManager) : ConnectionManager :=
  let f :=
    match cm.form.db_type with
    | DatabaseType.SQLite =>
      match cm.form.active_field with
      | FormField.Name => FormField.ConnectionString
      | FormField.Type => FormField.Name
      | FormField.ConnectionString => FormField.Type
      | _ => FormField.Name
    | _ =>
      match cm.form.active_field with
      | FormField.Name => FormField.Database
      | FormField.Type => FormField.Name
      | FormField.Host => FormField.Type
      | FormField.Port => FormField.Host
      | FormField.Username => FormField.Port
      | FormField.Password => FormField.Username
      | FormField.Database => FormField.Password
      | _ => FormField.Name
  { cm with form := { cm.form with active_field := f } }

/-- ConnectionManager::cycle_db_type. -/
def ConnectionManager.cycle_db_type (cm : ConnectionManager) : ConnectionManager :=
  let t :=
    match cm.form.db_type with
    | DatabaseType.SQLite => DatabaseType.MySQL
    | DatabaseType.MySQL => DatabaseType.MariaDB
    | DatabaseType.MariaDB => DatabaseType.SQLite
  { cm with form := { cm.form with db_type := t } }

/-- ConnectionManager::insert_char (the port field accepts only digits,
the type field is cycled rather than typed). -/
def ConnectionManager.insert_char (cm : ConnectionManager) (c : Char) : ConnectionManager :=
  match cm.form.active_field with
  | FormField.Name => { cm with form := { cm.form with name := cm.form.name ++ [c] } }
  | FormField.ConnectionString =>
    { cm with form := { cm.form with connection_string := cm.form.connection_string ++ [c] } }
  | FormField.Username =>
    { cm with form := { cm.form with username := cm.form.username ++ [c] } }
  | FormField.Password =>
    { cm with form := { cm.form with password := cm.form.password ++ [c] } }
  | FormField.Host => { cm with form := { cm.form with host := cm.form.host ++ [c] } }
  | FormField.Port =>
    if c.isDigit then { cm with form := { cm.form with port := cm.form.port ++ [c] } }
    else cm
  | FormField.Database =>
    { cm with form := { cm.form with database := cm.form.database ++ [c] } }
  | FormField.Type => cm

/-- ConnectionManager::delete_char. -/
def ConnectionManager.delete_char (cm : ConnectionManager) : ConnectionManager :=
  match cm.form.active_field with
  | FormField.Name => { cm with form := { cm.form with name := cm.form.name.dropLast } }
  | FormField.ConnectionString =>
    { cm with form := { cm.form with connection_string := cm.form.connection_string.dropLast } }
  | FormField.Username =>
    { cm with form := { cm.form with username := cm.form.username.dropLast } }
  | FormField.Password =>
    { cm with form := { cm.form with password := cm.form.password.dropLast } }
  | FormField.Host => { cm with form := { cm.form with host := cm.form.host.dropLast } }
  | FormField.Port => { cm with form := { cm.form with port := cm.form.port.dropLast } }
  | FormField.Database =>
    { cm with form := { cm.form with database := cm.form.database.dropLast } }
  | FormField.Type => cm

/-- ConnectionManager::move_list_up. -/
def ConnectionManager.move_list_up (cm : ConnectionManager) : ConnectionManager :=
  let selected := cm.list_state.getD 0
  if selected > 0 then { cm with list_state := some (selected - 1) } else cm

/-- ConnectionManager::move_list_down. -/
def ConnectionManager.move_list_down (cm : ConnectionManager) (max : Nat) :
    ConnectionManager :=
  let selected := cm.list_state.getD 0
  if selected < max - 1 then { cm with list_state := some (selected + 1) } else cm

/-- ConnectionManager::get_connection_string: the SQLite file path, or a
mysql url rebuilt from the form fields. -/
def ConnectionManager.get_connection_string (cm : ConnectionManager) : List Char :=
  match cm.form.db_type with
  | DatabaseType.SQLite => cm.form.connection_string
  | _ =>
    let url := strL "mysql://"
    let url :=
      if !(cm.form.username = []) then
        url ++ cm.form.username ++
          (if !(cm.form.password = []) then ':' :: cm.form.password else []) ++ ['@']
      else url
    let host := if cm.form.host = [] then strL "localhost" else cm.form.host
    let url := url ++ host
    let port := if cm.form.port = [] then strL "3306" else cm.form.port
    let url := if !(port = strL "3306") then url ++ ':' :: port else url
    if !(cm.form.database = []) then url ++ '/' :: cm.form.database else url

/-- struct ConnectionConfig of src/config.rs. -/
structure ConnectionConfig where
  name : List Char
  connection_string : List Char
  db_type : List Char
  username : Option (List Char)
  password : Option (List Char)
  host : Option (List Char)
  port : Option (List Char)
  database : Option (List Char)
deriving DecidableEq, Repr

/-- struct Config of src/config.rs (the persisted connection list). -/
structure Config where
  connections : List ConnectionConfig
deriving DecidableEq, Repr

/-- Config::add_connection: appends unless an entry with the same name and
connection string already exists. -/
def Config.add_connection (cfg : Config) (name connection_string db_type : List Char) :
    Config :=
  if cfg.connections.any (fun c =>
      c.name = name ∧ c.connection_string = connection_string) then cfg
  else
    { connections := cfg.connections ++
        [⟨name, connection_string, db_type, none, none, none, none, none⟩] }

/-- Config::add_connection_detailed. -/
def Config.add_connection_detailed (cfg : Config) (name connection_string db_type : List Char)
    (username password host port database : Option (List Char)) : Config :=
  if cfg.connections.any (fun c =>
      c.name = name ∧ c.connection_string = connection_string) then cfg
  else
    { connections := cfg.connections ++
        [⟨name, connection_string, db_type, username, password, host, port, database⟩] }

/-- Config::remove_connection (retain by name). -/
def Config.remove_connection (cfg : Config) (name : List Char) : Config :=
  { connections := cfg.connections.filter (fun c => !(c.name = name)) }

/-- Config::get_connections. -/
def Config.get_connections (cfg : Config) : List ConnectionConfig := cfg.connections

/-- enum Pane of src/app.rs. -/
inductive Pane where
  | DatabaseBrowser
  | QueryEditor
  | Results
deriving DecidableEq, Repr

/-- ConnectionManagerMode Add or Edit: the two form modes (the
matches! macro over Add | Edit(_) of the source). -/
def ConnectionManagerMode.isForm : ConnectionManagerMode → Bool
  | ConnectionManagerMode.Add => true
  | ConnectionManagerMode.Edit _ => true
  | _ => false

/-- The db_type string stored in the configuration. -/
def dbTypeStr : DatabaseType → List Char
  | DatabaseType.SQLite => strL "sqlite"
  | DatabaseType.MySQL => strL "mysql"
  | DatabaseType.MariaDB => strL "mariadb"

/-- The inverse mapping used when loading a configuration entry (unknown
strings default to SQLite). -/
def dbTypeOfStr (s : List Char) : DatabaseType :=
  if s = strL "mysql" then DatabaseType.MySQL
  else if s = strL "mariadb" then DatabaseType.MariaDB
  else DatabaseType.SQLite

/-- The display name generated for a new connection (file name for SQLite
paths, protocol-prefixed database name for mysql urls). -/
def connDisplayName (cs : List Char) (dt : DatabaseType) : List Char :=
  match dt with
  | DatabaseType.SQLite =>
    let seg := afterLastSlash cs
    if seg = [] then cs else seg
  | DatabaseType.MySQL =>
    strL "MySQL: " ++ (afterLastSlash cs).takeWhile (fun c => !(c = '?'))
  | DatabaseType.MariaDB =>
    strL "MariaDB: " ++ (afterLastSlash cs).takeWhile (fun c => !(c = '?'))

/-- struct App of src/app.rs: the top-level state. The map of open
connection objects is modelled by the list of its keys (the connection
objects themselves are external database handles). -/
structure App where
  should_quit : Bool
  vim_state : VimState
  active_pane : Pane
  database_browser : DatabaseBrowser
  query_editor : QueryEditor
  results_viewer : ResultsViewer
  connection_manager : ConnectionManager
  config : Config
  connections : List Nat
  next_connection_id : Nat
  clipboard : Option (List Char)
deriving DecidableEq, Repr

/-- The external collaborators of spec section 6, as parameters of the
model: connection attempts, table listing, configuration persistence and
the query-executing operations. The App-to-App fields stand for whole
collaborator-bound operations (query execution, table loading, saving
edits); the Bool is the Result of the Rust call (false = error, which
the caller propagates). -/
structure Env where
  connectOk : List Char → DatabaseType → Bool
  listTables : List Char → Option (List TableInfo)
  listTablesById : Nat → Option (List TableInfo)
  saveOk : Bool
  executeQueryEff : App → App × Bool
  queryAtCursorEff : App → App × Bool
  activateEff : App → App × Bool
  saveTableEditsEff : App → App × Bool
  saveInsertRowEff : App → App × Bool
  refreshResultsEff : App → App × Bool
  goBackReloadEff : App → App × Bool
  saveSchemaEditsEff : App → App × Bool
  saveSchemaInsertEff : App → App × Bool

/-- App::update_focus: recomputes the three focused flags from the active
pane in one step. -/
def App.update_focus (s : App) : App :=
  { s with
    database_browser :=
      { s.database_browser with focused := decide (s.active_pane = Pane.DatabaseBrowser) }
    query_editor :=
      { s.query_editor with focused := decide (s.active_pane = Pane.QueryEditor) }
    results_viewer :=
      { s.results_viewer with focused := decide (s.active_pane = Pane.Results) } }

/-- App::next_pane: one step forward in the Browser, Editor, Results ring. -/
def App.next_pane (s : App) : App :=
  let p :=
    match s.active_pane with
    | Pane.DatabaseBrowser => Pane.QueryEditor
    | Pane.QueryEditor => Pane.Results
    | Pane.Results => Pane.DatabaseBrowser
  ({ s with active_pane := p }).update_focus

/-- App::prev_pane: one step backward in the ring. -/
def App.prev_pane (s : App) : App :=
  let p :=
    match s.active_pane with
    | Pane.DatabaseBrowser => Pane.Results
    | Pane.QueryEditor => Pane.DatabaseBrowser
    | Pane.Results => Pane.QueryEditor
  ({ s with active_pane := p }).update_focus

/-- App::new (without the saved-connection loading, which is an external
startup effect over an initially empty configuration). -/
def App.initial : App :=
  (({ should_quit := false
      vim_state := VimState.new
      active_pane := Pane.DatabaseBrowser
      database_browser := DatabaseBrowser.new
      query_editor := QueryEditor.new
      results_viewer := ResultsViewer.new
      connection_manager := ConnectionManager.new
      config := ⟨[]⟩
      connections := []
      next_connection_id := 0
      clipboard := none } : App)).update_focus

/-- App::open_database_with_save: reuses an existing browser entry with
the same connection string, otherwise connects, names and registers a new
one, loading its table list; optionally persists it to the
configuration. Failures of the external calls propagate, keeping the
mutations already performed. -/
def App.open_database_with_save (s : App) (env : Env) (cs : List Char)
    (dt : DatabaseType) (save_to_config : Bool) : App × Bool :=
  match s.database_browser.connections.find?
      (fun c => decide (c.connection_string = cs)) with
  | some existing =>
    let s1 := { s with database_browser :=
      { s.database_browser with selected_connection := some existing.id } }
    if s1.connections.contains existing.id then (s1, true)
    else if env.connectOk cs dt then
      match env.listTables cs with
      | some tbls =>
        let s2 := { s1 with database_browser := s1.database_browser.set_tables tbls }
        ({ s2 with connections := existing.id :: s2.connections }, true)
      | none => (s1, false)
    else (s1, false)
  | none =>
    if env.connectOk cs dt then
      let id := s.next_connection_id
      let s1 := { s with next_connection_id := id + 1 }
      let name := connDisplayName cs dt
      let info : ConnectionInfo := ⟨id, name, dt, cs⟩
      let s2 := { s1 with database_browser := s1.database_browser.add_connection info }
      let s3 := { s2 with database_browser :=
        { s2.database_browser with selected_connection := some id } }
      match env.listTables cs with
      | some tbls =>
        let s4 := { s3 with database_browser := s3.database_browser.set_tables tbls }
        let s5 := { s4 with connections := id :: s4.connections }
        if save_to_config then
          let s6 := { s5 with config := s5.config.add_connection name cs (dbTypeStr dt) }
          (s6, env.saveOk)
        else (s5, true)
      | none => (s3, false)
    else (s, false)

/-- App::test_connection: records the attempt outcome in the connection
manager (never an error itself). -/
def App.test_connection (s : App) (env : Env) (cs : List Char) (dt : DatabaseType) :
    App × Bool :=
  if env.connectOk cs dt then
    ({ s with connection_manager :=
      { s.connection_manager with test_result := some CmMsg.success } }, true)
  else
    ({ s with connection_manager :=
      { s.connection_manager with test_result := some CmMsg.connError } }, true)

/-- App::delete_connection: removes the selected connection from the open
map, the browser and the configuration; clears the results viewer only
after a successful configuration save. -/
def App.delete_connection (s : App) (env : Env) : App × Bool :=
  match s.database_browser.get_selected_connection with
  | none => (s, true)
  | some info =>
    let s1 := { s with connections := s.connections.filter (fun i => !(i = info.id)) }
    let s2 := { s1 with database_browser := s1.database_browser.remove_connection info.id }
    let s3 := { s2 with config := s2.config.remove_connection info.name }
    if env.saveOk then
      let s4 := { s3 with results_viewer := s3.results_viewer.clear }
      ({ s4 with results_viewer := { s4.results_viewer with table_name := none } }, true)
    else (s3, false)

/-- App::build_connection_string_from_config. -/
def buildConnStringFromConfig (conn : ConnectionConfig) (dt : DatabaseType) : List Char :=
  match dt with
  | DatabaseType.SQLite => conn.connection_string
  | _ =>
    let url := strL "mysql://"
    let url :=
      match conn.username with
      | some username =>
        url ++ username ++
          (match conn.password with
            | some password => ':' :: password
            | none => []) ++ ['@']
      | none => url
    let url := url ++ conn.host.getD (strL "localhost")
    let port := conn.port.getD (strL "3306")
    let url := if !(port = strL "3306") then url ++ ':' :: port else url
    match conn.database with
    | some database => if !(database = []) then url ++ '/' :: database else url
    | none => url

/-- App::save_connection_from_form: validates the form, rebuilds the
connection string, and adds (or replaces, in edit mode) the configuration
entry, persisting it. -/
def App.save_connection_from_form (s : App) (env : Env) : App × Bool :=
  let cm := s.connection_manager
  if cm.form.name = [] then
    ({ s with connection_manager := { cm with test_result := some CmMsg.nameRequired } },
      true)
  else if cm.form.db_type = DatabaseType.SQLite ∧ cm.form.connection_string = [] then
    ({ s with connection_manager :=
      { cm with test_result := some CmMsg.filePathRequired } }, true)
  else if ¬(cm.form.db_type = DatabaseType.SQLite) ∧ cm.form.username = [] then
    ({ s with connection_manager :=
      { cm with test_result := some CmMsg.usernameRequired } }, true)
  else if ¬(cm.form.db_type = DatabaseType.SQLite) ∧ cm.form.host = [] then
    ({ s with connection_manager :=
      { cm with test_result := some CmMsg.hostRequired } }, true)
  else if ¬(cm.form.db_type = DatabaseType.SQLite) ∧ cm.form.port = [] then
    ({ s with connection_manager :=
      { cm with test_result := some CmMsg.portRequired } }, true)
  else
    let db_type_str := dbTypeStr cm.form.db_type
    let connection_string := cm.get_connection_string
    let username :=
      if cm.form.db_type = DatabaseType.SQLite ∨ cm.form.username = [] then none
      else some cm.form.username
    let password :=
      if cm.form.db_type = DatabaseType.SQLite ∨ cm.form.password = [] then none
      else some cm.form.password
    let host :=
      if cm.form.db_type = DatabaseType.SQLite ∨ cm.form.host = [] then none
      else some cm.form.host
    let port :=
      if cm.form.db_type = DatabaseType.SQLite ∨ cm.form.port = [] then none
      else some cm.form.port
    let database :=
      if cm.form.db_type = DatabaseType.SQLite ∨ cm.form.database = [] then none
      else some cm.form.database
    match cm.mode with
    | ConnectionManagerMode.Add =>
      let cfg1 := s.config.add_connection_detailed cm.form.name connection_string
        db_type_str username password host port database
      let s1 := { s with config := cfg1 }
      if env.saveOk then
        let cm1 :=
          { s1.connection_manager with
            mode := ConnectionManagerMode.List
            test_result := none }
        ({ s1 with connection_manager := cm1 }, true)
      else (s1, false)
    | ConnectionManagerMode.Edit index =>
      let s1 :=
        match (s.config.get_connections.get? index).map (fun c => c.name) with
        | some oldName => { s with config := s.config.remove_connection oldName }
        | none => s
      let cfg2 := s1.config.add_connection_detailed cm.form.name connection_string
        db_type_str username password host port database
      let s2 := { s1 with config := cfg2 }
      if env.saveOk then
        let cm2 :=
          { s2.connection_manager with
            mode := ConnectionManagerMode.List
            test_result := none }
        ({ s2 with connection_manager := cm2 }, true)
      else (s2, false)
    | _ => (s, true)

/-- App::handle_connection_manager_action: the list-mode actions new,
edit, delete, test and connect (a newline character). -/
def App.handle_cm_action (s : App) (env : Env) (action : Char) : App × Bool :=
  match s.connection_manager.mode with
  | ConnectionManagerMode.List =>
    if action = 'n' then
      ({ s with connection_manager := s.connection_manager.show_add_form }, true)
    else if action = 'e' then
      match s.connection_manager.list_state with
      | some selected =>
        match s.config.get_connections.get? selected with
        | some conn =>
          let dt := dbTypeOfStr conn.db_type
          if conn.username.isSome ∨ conn.password.isSome ∨ conn.host.isSome ∨
              conn.port.isSome ∨ conn.database.isSome then
            let cm1 := s.connection_manager.show_edit_form_detailed selected conn.name
              dt conn.connection_string conn.username conn.password conn.host conn.port
              conn.database
            ({ s with connection_manager := cm1 }, true)
          else
            let cm1 := s.connection_manager.show_edit_form selected conn.name dt
              conn.connection_string
            ({ s with connection_manager := cm1 }, true)
        | none => (s, true)
      | none => (s, true)
    else if action = 'd' then
      match s.connection_manager.list_state with
      | some selected =>
        match (s.config.get_connections.get? selected).map (fun c => c.name) with
        | some name =>
          let s1 := { s with config := s.config.remove_connection name }
          if env.saveOk then
            let conn_count := s1.config.get_connections.length
            if selected ≥ conn_count ∧ conn_count > 0 then
              ({ s1 with connection_manager :=
                { s1.connection_manager with list_state := some (conn_count - 1) } },
                true)
            else (s1, true)
          else (s1, false)
        | none => (s, true)
      | none => (s, true)
    else if action = 't' then
      match s.connection_manager.list_state with
      | some selected =>
        match s.config.get_connections.get? selected with
        | some conn =>
          s.test_connection env conn.connection_string (dbTypeOfStr conn.db_type)
        | none => (s, true)
      | none => (s, true)
    else if action = '\n' then
      match s.connection_manager.list_state with
      | some selected =>
        match s.config.get_connections.get? selected with
        | some conn =>
          let dt := dbTypeOfStr conn.db_type
          let conn_str :=
            if (dt = DatabaseType.MySQL ∨ dt = DatabaseType.MariaDB) ∧
                (conn.username.isSome ∨ conn.host.isSome) then
              buildConnStringFromConfig conn dt
            else conn.connection_string
          let r := s.open_database_with_save env conn_str dt false
          if r.2 then
            let s1 := { r.1 with connection_manager := r.1.connection_manager.hide }
            if s1.connection_manager.test_result = none then
              ({ s1 with connection_manager := s1.connection_manager.hide }, true)
            else (s1, true)
          else
            ({ r.1 with connection_manager :=
              { r.1.connection_manager with test_result := some CmMsg.connectFailed } },
              true)
        | none =>
          if s.connection_manager.test_result = none then
            ({ s with connection_manager := s.connection_manager.hide }, true)
          else (s, true)
      | none =>
        if s.connection_manager.test_result = none then
          ({ s with connection_manager := s.connection_manager.hide }, true)
        else (s, true)
    else (s, true)
  | _ => (s, true)

/-- App::execute_command: the colon command-line surface (q, quit, open,
mysql, mariadb, exec, execute, clear, disconnect, close, connections,
conn; unknown leading tokens are no-ops). -/
def App.execute_command (s : App) (env : Env) (cmd : List Char) : App × Bool :=
  match splitWs cmd with
  | [] => (s, true)
  | p0 :: rest =>
    if p0 = strL "q" ∨ p0 = strL "quit" then ({ s with should_quit := true }, true)
    else if p0 = strL "open" then
      if rest = [] then (s, true)
      else s.open_database_with_save env (List.intercalate (strL " ") rest)
        DatabaseType.SQLite true
    else if p0 = strL "mysql" then
      if rest = [] then (s, true)
      else s.open_database_with_save env (List.intercalate (strL " ") rest)
        DatabaseType.MySQL true
    else if p0 = strL "mariadb" then
      if rest = [] then (s, true)
      else s.open_database_with_save env (List.intercalate (strL " ") rest)
        DatabaseType.MariaDB true
    else if p0 = strL "exec" ∨ p0 = strL "execute" then env.executeQueryEff s
    else if p0 = strL "clear" then
      ({ s with
        query_editor := s.query_editor.clear
        results_viewer := s.results_viewer.clear }, true)
    else if p0 = strL "disconnect" ∨ p0 = strL "close" then s.delete_connection env
    else if p0 = strL "connections" ∨ p0 = strL "conn" then
      ({ s with connection_manager := s.connection_manager.show }, true)
    else (s, true)

/-- App::go_back_to_database_list: the pure browser reset followed by the
database-collaborator reload of the list for mysql connections. -/
def App.go_back_to_database_list (s : App) (env : Env) : App × Bool :=
  env.goBackReloadEff { s with database_browser := s.database_browser.go_back_to_databases }

/-- The loop body of the MoveLeft dispatch in cell-edit sub-mode:
auto-save the current cell, then move the column pointer left. -/
def ResultsViewer.edit_left_step (rv : ResultsViewer) : ResultsViewer :=
  (rv.save_cell_edit).move_column_left

/-- The loop body of the MoveRight dispatch in cell-edit sub-mode. -/
def ResultsViewer.edit_right_step (rv : ResultsViewer) : ResultsViewer :=
  (rv.save_cell_edit).move_column_right

/-- The loop body of the MoveLeft dispatch in row-insert sub-mode. -/
def ResultsViewer.insert_left_step (rv : ResultsViewer) : ResultsViewer :=
  (rv.save_insert_field).move_column_left

/-- The loop body of the MoveRight dispatch in row-insert sub-mode. -/
def ResultsViewer.insert_right_step (rv : ResultsViewer) : ResultsViewer :=
  (rv.save_insert_field).move_column_right

/-- App::execute_vim_command: the dispatcher routing table over
(command, active pane, sub-mode flags). -/
def App.execute_vim_command (s : App) (env : Env) (command : VimCommand) : App × Bool :=
  match command with
  | VimCommand.Quit => ({ s with should_quit := true }, true)
  | VimCommand.ExecuteCommand cmd => s.execute_command env cmd
  | VimCommand.NextPane => (s.next_pane, true)
  | VimCommand.PrevPane => (s.prev_pane, true)
  | VimCommand.Activate =>
    if s.active_pane = Pane.DatabaseBrowser then env.activateEff s else (s, true)
  | VimCommand.ExecuteQueryUnderCursor =>
    if s.active_pane = Pane.QueryEditor then env.queryAtCursorEff s else (s, true)
  | VimCommand.ExecuteAllQueries =>
    if s.active_pane = Pane.QueryEditor then env.executeQueryEff s else (s, true)
  | VimCommand.EnterInsertMode =>
    if s.active_pane = Pane.QueryEditor then
      ({ s with vim_state := s.vim_state.enter_insert_mode }, true)
    else (s, true)
  | VimCommand.EnterInsertModeAfter =>
    if s.active_pane = Pane.QueryEditor then
      ({ s with vim_state := s.vim_state.enter_insert_mode }, true)
    else (s, true)
  | VimCommand.ExitInsertMode =>
    let s := { s with vim_state := s.vim_state.enter_normal_mode }
    let s :=
      if s.active_pane = Pane.Results ∧ s.results_viewer.edit_mode = true then
        { s with results_viewer := s.results_viewer.save_cell_edit }
      else s
    let s :=
      if s.active_pane = Pane.Results ∧ s.results_viewer.insert_mode = true then
        { s with results_viewer := s.results_viewer.save_insert_field }
      else s
    (s, true)
  | VimCommand.EnterInsertRowMode =>
    if s.active_pane = Pane.Results then
      if s.results_viewer.active_tab = TabMode.Schema then
        ({ s with
          results_viewer := s.results_viewer.enter_schema_insert_mode
          vim_state := s.vim_state.enter_insert_mode }, true)
      else
        ({ s with
          results_viewer := s.results_viewer.enter_insert_mode
          vim_state := s.vim_state.enter_insert_mode }, true)
    else (s, true)
  | VimCommand.SaveInsertRow =>
    if s.active_pane = Pane.Results then env.saveInsertRowEff s else (s, true)
  | VimCommand.EnterEditMode =>
    if s.active_pane = Pane.Results then
      if s.results_viewer.active_tab = TabMode.Schema then
        ({ s with
          results_viewer := s.results_viewer.enter_schema_edit_mode
          vim_state := s.vim_state.enter_insert_mode }, true)
      else
        ({ s with
          results_viewer := s.results_viewer.enter_edit_mode
          vim_state := s.vim_state.enter_insert_mode }, true)
    else (s, true)
  | VimCommand.ExitEditMode =>
    if s.active_pane = Pane.Results then
      if s.results_viewer.schema_edit_mode = true then
        ({ s with
          results_viewer := s.results_viewer.exit_schema_edit_mode
          vim_state := s.vim_state.enter_normal_mode }, true)
      else if s.results_viewer.edit_mode = true then
        ({ s with
          results_viewer := s.results_viewer.exit_edit_mode
          vim_state := s.vim_state.enter_normal_mode }, true)
      else (s, true)
    else (s, true)
  | VimCommand.MoveColumnLeft =>
    if s.active_pane = Pane.Results ∧ s.results_viewer.edit_mode = true then
      ({ s with results_viewer := s.results_viewer.move_column_left }, true)
    else (s, true)
  | VimCommand.MoveColumnRight =>
    if s.active_pane = Pane.Results ∧ s.results_viewer.edit_mode = true then
      ({ s with results_viewer := s.results_viewer.move_column_right }, true)
    else (s, true)
  | VimCommand.SaveAllEdits =>
    if s.active_pane = Pane.Results then
      if s.results_viewer.insert_mode = true then env.saveInsertRowEff s
      else env.saveTableEditsEff s
    else (s, true)
  | VimCommand.EnterVisualMode =>
    if s.active_pane = Pane.QueryEditor then
      ({ s with query_editor := s.query_editor.start_visual_mode }, true)
    else (s, true)
  | VimCommand.ExitVisualMode =>
    if s.active_pane = Pane.QueryEditor then
      ({ s with query_editor := s.query_editor.exit_visual_mode }, true)
    else (s, true)
  | VimCommand.MoveUp count =>
    (match s.active_pane with
    | Pane.DatabaseBrowser =>
      ({ s with database_browser := DatabaseBrowser.move_up^[count] s.database_browser },
        true)
    | Pane.QueryEditor =>
      ({ s with query_editor := QueryEditor.move_up count s.query_editor }, true)
    | Pane.Results =>
      if s.results_viewer.active_tab = TabMode.Schema then
        ({ s with results_viewer :=
          ResultsViewer.schema_move_up^[count] s.results_viewer }, true)
      else ({ s with results_viewer := ResultsViewer.move_up count s.results_viewer },
        true))
  | VimCommand.MoveDown count =>
    (match s.active_pane with
    | Pane.DatabaseBrowser =>
      ({ s with database_browser :=
        DatabaseBrowser.move_down^[count] s.database_browser }, true)
    | Pane.QueryEditor =>
      ({ s with query_editor := QueryEditor.move_down count s.query_editor }, true)
    | Pane.Results =>
      if s.results_viewer.active_tab = TabMode.Schema then
        ({ s with results_viewer :=
          ResultsViewer.schema_move_down^[count] s.results_viewer }, true)
      else ({ s with results_viewer := ResultsViewer.move_down count s.results_viewer },
        true))
  | VimCommand.MoveLeft count =>
    if s.active_pane = Pane.QueryEditor then
      ({ s with query_editor := QueryEditor.move_left count s.query_editor }, true)
    else if s.active_pane = Pane.Results ∧ s.results_viewer.edit_mode = true then
      ({ s with results_viewer := ResultsViewer.edit_left_step^[count] s.results_viewer },
        true)
    else if s.active_pane = Pane.Results ∧ s.results_viewer.insert_mode = true then
      ({ s with
        results_viewer := ResultsViewer.insert_left_step^[count] s.results_viewer },
        true)
    else if s.active_pane = Pane.Results then
      ({ s with
        results_viewer := ResultsViewer.move_column_left^[count] s.results_viewer },
        true)
    else (s, true)
  | VimCommand.MoveRight count =>
    if s.active_pane = Pane.QueryEditor then
      ({ s with query_editor := QueryEditor.move_right count s.query_editor }, true)
    else if s.active_pane = Pane.Results ∧ s.results_viewer.edit_mode = true then
      ({ s with
        results_viewer := ResultsViewer.edit_right_step^[count] s.results_viewer },
        true)
    else if s.active_pane = Pane.Results ∧ s.results_viewer.insert_mode = true then
      ({ s with
        results_viewer := ResultsViewer.insert_right_step^[count] s.results_viewer },
        true)
    else if s.active_pane = Pane.Results then
      ({ s with
        results_viewer := ResultsViewer.move_column_right^[count] s.results_viewer },
        true)
    else (s, true)
  | VimCommand.GotoTop =>
    (match s.active_pane with
    | Pane.QueryEditor => ({ s with query_editor := s.query_editor.goto_top }, true)
    | Pane.Results => ({ s with results_viewer := s.results_viewer.goto_top }, true)
    | _ => (s, true))
  | VimCommand.GotoBottom =>
    (match s.active_pane with
    | Pane.QueryEditor => ({ s with query_editor := s.query_editor.goto_bottom }, true)
    | Pane.Results => ({ s with results_viewer := s.results_viewer.goto_bottom }, true)
    | _ => (s, true))
  | VimCommand.GotoLineStart =>
    if s.active_pane = Pane.QueryEditor then
      ({ s with query_editor := s.query_editor.goto_line_start }, true)
    else (s, true)
  | VimCommand.GotoLineEnd =>
    if s.active_pane = Pane.QueryEditor then
      ({ s with query_editor := s.query_editor.goto_line_end }, true)
    else (s, true)
  | VimCommand.InsertChar c =>
    if s.vim_state.mode = VimMode.Insert then
      if s.active_pane = Pane.QueryEditor then
        ({ s with query_editor := s.query_editor.insert_char c }, true)
      else if s.active_pane = Pane.Results ∧
          (s.results_viewer.edit_mode = true ∨ s.results_viewer.insert_mode = true) then
        ({ s with results_viewer := s.results_viewer.edit_insert_char c }, true)
      else (s, true)
    else (s, true)
  | VimCommand.InsertNewline =>
    if s.vim_state.mode = VimMode.Insert ∧ s.active_pane = Pane.QueryEditor then
      ({ s with query_editor := s.query_editor.insert_newline }, true)
    else (s, true)
  | VimCommand.Backspace =>
    if s.vim_state.mode = VimMode.Insert then
      if s.active_pane = Pane.QueryEditor then
        ({ s with query_editor := s.query_editor.backspace }, true)
      else if s.active_pane = Pane.Results ∧
          (s.results_viewer.edit_mode = true ∨ s.results_viewer.insert_mode = true) then
        ({ s with results_viewer := s.results_viewer.edit_backspace }, true)
      else (s, true)
    else (s, true)
  | VimCommand.DeleteChar =>
    if s.active_pane = Pane.QueryEditor then
      ({ s with query_editor := s.query_editor.delete_char }, true)
    else (s, true)
  | VimCommand.YankSelection =>
    if s.active_pane = Pane.QueryEditor then
      let s1 :=
        match s.query_editor.get_selection with
        | some text => { s with clipboard := some text }
        | none => s
      ({ s1 with query_editor := s1.query_editor.exit_visual_mode }, true)
    else (s, true)
  | VimCommand.DeleteConnection =>
    if s.active_pane = Pane.DatabaseBrowser then s.delete_connection env else (s, true)
  | VimCommand.OpenConnectionManager =>
    ({ s with connection_manager := s.connection_manager.show }, true)
  | VimCommand.CloseConnectionManager =>
    ({ s with connection_manager := s.connection_manager.hide }, true)
  | VimCommand.ConnectionManagerAction c => s.handle_cm_action env c
  | VimCommand.StartSearch =>
    if s.active_pane = Pane.DatabaseBrowser then
      ({ s with database_browser := s.database_browser.enter_search_mode }, true)
    else (s, true)
  | VimCommand.DiscardChanges =>
    if s.active_pane = Pane.Results then
      let s1 :=
        if s.results_viewer.active_tab = TabMode.Schema then
          { s with results_viewer := s.results_viewer.discard_schema_changes }
        else { s with results_viewer := s.results_viewer.discard_all_changes }
      ({ s1 with vim_state := s1.vim_state.enter_normal_mode }, true)
    else (s, true)
  | VimCommand.RefreshData =>
    if s.active_pane = Pane.Results then env.refreshResultsEff s
    else if s.active_pane = Pane.DatabaseBrowser then
      match s.database_browser.selected_connection with
      | some conn_id =>
        if s.connections.contains conn_id then
          match env.listTablesById conn_id with
          | some tables =>
            ({ s with database_browser := s.database_browser.set_tables tables }, true)
          | none => (s, false)
        else (s, true)
      | none => (s, true)
    else (s, true)
  | _ => (s, true)

/-- The connection-manager override of App::handle_key_event: every key
arriving while the overlay is visible is handled here (match arms in
source order; the plain-character arm precedes the list navigation arms,
so plain j and k reach the list as actions, not as motions). -/
def App.handle_cm_key (s : App) (env : Env) (k : KeyEvent) : App × Bool :=
  match k.code with
  | KeyCode.esc =>
    if s.connection_manager.mode.isForm = true then
      ({ s with connection_manager := { s.connection_manager with
        mode := ConnectionManagerMode.List, test_result := none } }, true)
    else ({ s with connection_manager := s.connection_manager.hide }, true)
  | KeyCode.enter =>
    if s.connection_manager.mode = ConnectionManagerMode.List then
      s.handle_cm_action env '\n'
    else (s, true)
  | KeyCode.backspace =>
    if s.connection_manager.mode.isForm = true then
      ({ s with connection_manager := s.connection_manager.delete_char }, true)
    else (s, true)
  | KeyCode.tab =>
    if s.connection_manager.mode.isForm = true then
      ({ s with connection_manager := s.connection_manager.next_field }, true)
    else (s, true)
  | KeyCode.backTab =>
    if s.connection_manager.mode.isForm = true then
      ({ s with connection_manager := s.connection_manager.prev_field }, true)
    else (s, true)
  | KeyCode.up =>
    if s.connection_manager.mode = ConnectionManagerMode.List then
      ({ s with connection_manager := s.connection_manager.move_list_up }, true)
    else (s, true)
  | KeyCode.down =>
    if s.connection_manager.mode = ConnectionManagerMode.List then
      ({ s with connection_manager :=
        s.connection_manager.move_list_down s.config.get_connections.length }, true)
    else (s, true)
  | KeyCode.char c =>
    if k.ctrl = false then
      match s.connection_manager.mode with
      | ConnectionManagerMode.List => s.handle_cm_action env c
      | ConnectionManagerMode.Add =>
        if c = ' ' ∧ s.connection_manager.form.active_field = FormField.Type then
          ({ s with connection_manager := s.connection_manager.cycle_db_type }, true)
        else ({ s with connection_manager := s.connection_manager.insert_char c }, true)
      | ConnectionManagerMode.Edit _ =>
        if c = ' ' ∧ s.connection_manager.form.active_field = FormField.Type then
          ({ s with connection_manager := s.connection_manager.cycle_db_type }, true)
        else ({ s with connection_manager := s.connection_manager.insert_char c }, true)
      | _ => (s, true)
    else if c = 'k' ∧ s.connection_manager.mode = ConnectionManagerMode.List then
      ({ s with connection_manager := s.connection_manager.move_list_up }, true)
    else if c = 'j' ∧ s.connection_manager.mode = ConnectionManagerMode.List then
      ({ s with connection_manager :=
        s.connection_manager.move_list_down s.config.get_connections.length }, true)
    else if c = 't' then
      if s.connection_manager.mode.isForm = true then
        s.test_connection env s.connection_manager.get_connection_string
          s.connection_manager.form.db_type
      else (s, true)
    else if c = 's' then
      if s.connection_manager.mode.isForm = true then s.save_connection_from_form env
      else (s, true)
    else (s, true)
  | _ => (s, true)

/-- The outcome of one key event: the resulting state, whether every
external call succeeded, whether the vim state machine was invoked, and
the command (when any) that was dispatched to the routing table. -/
structure KeyOutcome where
  state : App
  ok : Bool
  vimInvoked : Bool
  vimDispatched : Option VimCommand
deriving DecidableEq, Repr

/-- App::handle_key_event: the full routing in source order - the
connection-manager override, the browser search mode, the browser Escape
navigation, Results tab switching on the digit keys, Control-d discard,
the schema editing sub-mode keys, and finally the vim state machine
followed by command dispatch. -/
def App.handle_key_event (s : App) (env : Env) (k : KeyEvent) : KeyOutcome :=
  if s.connection_manager.visible = true then
    let r := s.handle_cm_key env k
    ⟨r.1, r.2, false, none⟩
  else if s.active_pane = Pane.DatabaseBrowser ∧ s.database_browser.search_mode = true then
    match k.code with
    | KeyCode.esc =>
      ⟨{ s with database_browser := s.database_browser.exit_search_mode }, true, false,
        none⟩
    | KeyCode.enter =>
      ⟨{ s with database_browser := s.database_browser.exit_search_mode }, true, false,
        none⟩
    | KeyCode.backspace =>
      ⟨{ s with database_browser := s.database_browser.search_backspace }, true, false,
        none⟩
    | KeyCode.down =>
      ⟨{ s with database_browser := s.database_browser.move_down }, true, false, none⟩
    | KeyCode.up =>
      ⟨{ s with database_browser := s.database_browser.move_up }, true, false, none⟩
    | KeyCode.char c =>
      if c = 'j' then
        ⟨{ s with database_browser := s.database_browser.move_down }, true, false, none⟩
      else if c = 'k' then
        ⟨{ s with database_browser := s.database_browser.move_up }, true, false, none⟩
      else if k.ctrl = false then
        ⟨{ s with database_browser := s.database_browser.search_insert_char c }, true,
          false, none⟩
      else ⟨s, true, false, none⟩
    | _ => ⟨s, true, false, none⟩
  else if k.code = KeyCode.esc ∧ s.active_pane = Pane.DatabaseBrowser ∧
      ¬(s.database_browser.search_query = []) then
    ⟨{ s with database_browser := s.database_browser.clear_search }, true, false, none⟩
  else if k.code = KeyCode.esc ∧ s.active_pane = Pane.DatabaseBrowser ∧
      s.database_browser.viewing_tables = true then
    let r := s.go_back_to_database_list env
    ⟨r.1, r.2, false, none⟩
  else if s.active_pane = Pane.Results ∧ s.results_viewer.edit_mode = false ∧
      s.results_viewer.insert_mode = false ∧ s.results_viewer.schema_edit_mode = false ∧
      s.results_viewer.schema_insert_mode = false ∧ k.code = KeyCode.char '1' ∧
      k.ctrl = false then
    ⟨{ s with results_viewer := s.results_viewer.switch_to_data_tab }, true, false, none⟩
  else if s.active_pane = Pane.Results ∧ s.results_viewer.edit_mode = false ∧
      s.results_viewer.insert_mode = false ∧ s.results_viewer.schema_edit_mode = false ∧
      s.results_viewer.schema_insert_mode = false ∧ k.code = KeyCode.char '2' ∧
      k.ctrl = false then
    ⟨{ s with results_viewer := s.results_viewer.switch_to_schema_tab }, true, false,
      none⟩
  else if s.active_pane = Pane.Results ∧ s.results_viewer.edit_mode = false ∧
      s.results_viewer.insert_mode = false ∧ s.results_viewer.schema_edit_mode = false ∧
      s.results_viewer.schema_insert_mode = false ∧ k.code = KeyCode.char '3' ∧
      k.ctrl = false then
    ⟨{ s with results_viewer := s.results_viewer.switch_to_indexes_tab }, true, false,
      none⟩
  else if k.code = KeyCode.char 'd' ∧ k.ctrl = true ∧ s.active_pane = Pane.Results ∧
      s.results_viewer.has_any_changes = true then
    let s1 :=
      if s.results_viewer.active_tab = TabMode.Schema then
        { s with results_viewer := s.results_viewer.discard_schema_changes }
      else { s with results_viewer := s.results_viewer.discard_all_changes }
    ⟨{ s1 with vim_state := s1.vim_state.enter_normal_mode }, true, false, none⟩
  else if s.active_pane = Pane.Results ∧ s.results_viewer.active_tab = TabMode.Schema ∧
      (s.results_viewer.schema_edit_mode = true ∨
        s.results_viewer.schema_insert_mode = true) then
    match k.code with
    | KeyCode.esc =>
      if s.results_viewer.schema_edit_mode = true then
        ⟨{ s with results_viewer := s.results_viewer.exit_schema_edit_mode }, true, false,
          none⟩
      else
        ⟨{ s with results_viewer := s.results_viewer.exit_schema_insert_mode }, true,
          false, none⟩
    | KeyCode.left =>
      ⟨{ s with results_viewer := s.results_viewer.schema_move_column_left }, true, false,
        none⟩
    | KeyCode.right =>
      ⟨{ s with results_viewer := s.results_viewer.schema_move_column_right }, true,
        false, none⟩
    | KeyCode.backspace =>
      ⟨{ s with results_viewer := s.results_viewer.schema_backspace }, true, false, none⟩
    | KeyCode.char c =>
      if c = 'h' then
        ⟨{ s with results_viewer := s.results_viewer.schema_move_column_left }, true,
          false, none⟩
      else if c = 'l' then
        ⟨{ s with results_viewer := s.results_viewer.schema_move_column_right }, true,
          false, none⟩
      else if c = 's' ∧ k.ctrl = true then
        if s.results_viewer.schema_insert_mode = true then
          let r := env.saveSchemaInsertEff s
          ⟨r.1, r.2, false, none⟩
        else
          let r := env.saveSchemaEditsEff s
          ⟨r.1, r.2, false, none⟩
      else if k.ctrl = false then
        ⟨{ s with results_viewer := s.results_viewer.schema_insert_char c }, true, false,
          none⟩
      else ⟨s, true, false, none⟩
    | _ => ⟨s, true, false, none⟩
  else
    let r := s.vim_state.handle_key k
    let s1 := { s with vim_state := r.1 }
    match r.2 with
    | some c =>
      let e := s1.execute_vim_command env c
      ⟨e.1, e.2, true, some c⟩
    | none => ⟨s1, true, true, none⟩

/-- The identity collaborator effect (everything succeeds and changes
nothing), used to instantiate theorems at concrete states. -/
def idEff : App → App × Bool := fun s => (s, true)

/-- A concrete environment in which every external call succeeds
trivially. -/
def trivEnv : Env where
  connectOk := fun _ _ => true
  listTables := fun _ => some []
  listTablesById := fun _ => some []
  saveOk := true
  executeQueryEff := idEff
  queryAtCursorEff := idEff
  activateEff := idEff
  saveTableEditsEff := idEff
  saveInsertRowEff := idEff
  refreshResultsEff := idEff
  goBackReloadEff := idEff
  saveSchemaEditsEff := idEff
  saveSchemaInsertEff := idEff

/-- The number of panes whose focused flag is raised. -/
def focusCount (s : App) : Nat :=
  (cond s.database_browser.focused 1 0) + (cond s.query_editor.focused 1 0) +
    (cond s.results_viewer.focused 1 0)

/-- A two-column, one-row result set used as a concrete fixture. -/
def fixtureResult : QueryResult where
  columns := [strL "c0", strL "c1"]
  rows := [[strL "x", strL "y"]]
  rows_affected := none
  execution_time_ms := 0

/-- A concrete app state focused on the Results pane with the fixture
result loaded in the data tab. -/
def fixtureApp : App :=
  { App.initial with
    active_pane := Pane.Results
    results_viewer := { ResultsViewer.new with result := some fixtureResult } }

/-- The fixture app inside the cell-edit sub-mode with a pending buffer. -/
def fixtureAppEditing : App :=
  { fixtureApp with
    results_viewer := { fixtureApp.results_viewer with
      edit_mode := true
      edit_buffer := strL "hello" } }

/-- The four motion directions whose dispatch carries a repeat count. -/
inductive MoveDir where
  | up
  | down
  | left
  | right
deriving DecidableEq, Repr

/-- The motion command of a direction with a repeat count. -/
def mkMove : MoveDir → Nat → VimCommand
  | MoveDir.up, n => VimCommand.MoveUp n
  | MoveDir.down, n => VimCommand.MoveDown n
  | MoveDir.left, n => VimCommand.MoveLeft n
  | MoveDir.right, n => VimCommand.MoveRight n

/-- The modal state together with the active pane and the three focused
flags: what the vim routing path owns, used to state that the connection
manager override leaves all of it untouched. -/
def vpf (s : App) : VimState × Pane × Bool × Bool × Bool :=
  (s.vim_state, s.active_pane, s.database_browser.focused, s.query_editor.focused,
    s.results_viewer.focused)

/-- Dispatches a list of commands in order, discarding the error flags
(used to state multi-step scenarios). -/
def dispatchList (env : Env) (cmds : List VimCommand) (s : App) : App :=
  cmds.foldl (fun t c => (t.execute_vim_command env c).1) s

/-- The command sequence of the auto-save-on-navigate scenario: enter the
cell-edit sub-mode, type the characters a b c, move one column right. -/
def c4Commands : List VimCommand :=
  [VimCommand.EnterEditMode, VimCommand.InsertChar 'a', VimCommand.InsertChar 'b',
    VimCommand.InsertChar 'c', VimCommand.MoveRight 1]

/-- A concrete app state with the connection manager overlay visible. -/
def fixtureAppCm : App :=
  { App.initial with
    connection_manager := { ConnectionManager.new with visible := true } }

/-- Dispatching the single-step motion of a direction: the state reached
by executing the corresponding Move command with count one. -/
def moveStep (env : Env) (d : MoveDir) (t : App) : App :=
  (t.execute_vim_command env (mkMove d 1)).1

section VimTheorems

/-- A normal-mode key that satisfies keeps_pending_g leaves the command
buffer unchanged and the mode Normal. -/
theorem handle_normal_char_keeps (s : VimState) (c : Char)
    (hc : c ≠ 'i' ∧ c ≠ 'a' ∧ c ≠ 'I' ∧ c ≠ 'A' ∧ c ≠ 'o' ∧ c ≠ 'O' ∧ c ≠ 'v' ∧
      c ≠ ':' ∧ c ≠ '/' ∧ c ≠ 'g') :
    (s.handle_normal_char c).1.command_buffer = s.command_buffer ∧
      (s.handle_normal_char c).1.mode = s.mode := by
  obtain ⟨h1, h2, h3, h4, h5, h6, h7, h8, h9, h10⟩ := hc
  unfold VimState.handle_normal_char
  split
  all_goals first
    | exact ⟨rfl, rfl⟩
    | exact absurd rfl h1
    | exact absurd rfl h2
    | exact absurd rfl h3
    | exact absurd rfl h4
    | exact absurd rfl h5
    | exact absurd rfl h6
    | exact absurd rfl h7
    | exact absurd rfl h8
    | exact absurd rfl h9
    | exact absurd rfl h10
    | (split_ifs <;> exact ⟨rfl, rfl⟩)

/-- Processing a keeps_pending_g key in Normal mode leaves the command
buffer unchanged and the mode Normal. -/
theorem handle_key_keeps_pending (s : VimState) (k : KeyEvent)
    (hm : s.mode = VimMode.Normal) (hk : keeps_pending_g k = true) :
    (s.handle_key k).1.command_buffer = s.command_buffer ∧
      (s.handle_key k).1.mode = VimMode.Normal := by
  obtain ⟨m, buf, reg, cnt⟩ := s
  have hm2 : m = VimMode.Normal := hm
  subst hm2
  obtain ⟨code, ctrl⟩ := k
  cases ctrl with
  | true =>
    cases code with
    | char c =>
      dsimp only [VimState.handle_key, VimState.handle_normal_mode]
      rw [if_pos rfl]
      split_ifs <;> exact ⟨rfl, rfl⟩
    | left => exact ⟨rfl, rfl⟩
    | right => exact ⟨rfl, rfl⟩
    | up => exact ⟨rfl, rfl⟩
    | down => exact ⟨rfl, rfl⟩
    | esc => exact ⟨rfl, rfl⟩
    | enter => exact ⟨rfl, rfl⟩
    | backspace => exact ⟨rfl, rfl⟩
    | tab => exact ⟨rfl, rfl⟩
    | backTab => exact ⟨rfl, rfl⟩
    | other => exact ⟨rfl, rfl⟩
  | false =>
    cases code with
    | char c =>
      dsimp only [VimState.handle_key, VimState.handle_normal_mode]
      rw [if_neg Bool.false_ne_true]
      simp [keeps_pending_g] at hk
      exact handle_normal_char_keeps ⟨VimMode.Normal, buf, reg, cnt⟩ c hk
    | left => exact ⟨rfl, rfl⟩
    | right => exact ⟨rfl, rfl⟩
    | up => exact ⟨rfl, rfl⟩
    | down => exact ⟨rfl, rfl⟩
    | esc => exact ⟨rfl, rfl⟩
    | enter => exact ⟨rfl, rfl⟩
    | backspace => exact ⟨rfl, rfl⟩
    | tab => exact ⟨rfl, rfl⟩
    | backTab => exact ⟨rfl, rfl⟩
    | other => exact ⟨rfl, rfl⟩

/-- With the buffer holding the pending g prefix, a further plain g press
emits GotoTop. -/
theorem handle_key_completes_gg (s : VimState)
    (hm : s.mode = VimMode.Normal) (hb : s.command_buffer = ['g']) :
    (s.handle_key (key 'g')).2 = some VimCommand.GotoTop := by
  obtain ⟨m, buf, reg, cnt⟩ := s
  have hm2 : m = VimMode.Normal := hm
  have hb2 : buf = ['g'] := hb
  subst hm2; subst hb2
  rfl

/-- C1 counterexample: from the initial state the key sequence g, j, g
ends with the final g emitting GotoTop, although the claim requires that
after g, k (with k not g) the following g must not emit GotoTop. -/
theorem C1_counterexample :
    (((VimState.new.handle_key (key 'g')).1.handle_key (key 'j')).1.handle_key
        (key 'g')).2 = some VimCommand.GotoTop ∧
      key 'j' ≠ key 'g' := by decide

/-- C1 amended: in Normal mode with an empty buffer, after g buffers the
prefix, a following key that does not itself clear the command buffer
(any key other than the mode-entry characters i a I A o O v, the command
and search characters : and /, and g itself) leaves the pending prefix in
place, so the final g of the sequence g, k, g DOES emit GotoTop; the
prefix is dropped only by keys that reset or switch the buffer. -/
theorem C1_amended (s : VimState) (k : KeyEvent) (hm : s.mode = VimMode.Normal)
    (hb : s.command_buffer = []) (hk : keeps_pending_g k = true) :
    ((((s.handle_key (key 'g')).1.handle_key k).1).handle_key (key 'g')).2 =
      some VimCommand.GotoTop := by
  have h1 : (s.handle_key (key 'g')).1 = { s with command_buffer := ['g'] } := by
    obtain ⟨m, buf, reg, cnt⟩ := s
    have hm2 : m = VimMode.Normal := hm
    have hb2 : buf = [] := hb
    subst hm2; subst hb2
    rfl
  rw [h1]
  have h2 := handle_key_keeps_pending { s with command_buffer := ['g'] } k hm hk
  exact handle_key_completes_gg _ h2.2 h2.1

/-- C1 amended witness at the concrete sequence g, j, g from the initial
state. -/
theorem C1_amended_witness :
    VimState.new.mode = VimMode.Normal ∧ VimState.new.command_buffer = [] ∧
      keeps_pending_g (key 'j') = true ∧
      ((((VimState.new.handle_key (key 'g')).1.handle_key (key 'j')).1).handle_key
          (key 'g')).2 = some VimCommand.GotoTop :=
  ⟨rfl, rfl, by decide, C1_amended VimState.new (key 'j') rfl rfl (by decide)⟩

/-- C2 counterexample: after the keys 3 then j from the initial state, the
j emits MoveDown 3 (a motion consuming the count), yet the count is still
some 3 afterwards, not none as the claim requires. -/
theorem C2_counterexample :
    ((VimState.new.handle_key (key '3')).1.handle_key (key 'j')).2 =
        some (VimCommand.MoveDown 3) ∧
      ((VimState.new.handle_key (key '3')).1.handle_key (key 'j')).1.count = some 3 := by
  decide

/-- C2 amended: in Normal mode the motion keys h j k l emit a motion
carrying the current count but leave the whole state (hence the pending
count) unchanged; entering Command mode via the colon key also preserves
the count; only the Insert and Visual mode entries reset the count to
none. -/
theorem C2_amended (s : VimState) (hm : s.mode = VimMode.Normal) :
    s.handle_key (key 'h') = (s, some (VimCommand.MoveLeft s.get_count)) ∧
      s.handle_key (key 'j') = (s, some (VimCommand.MoveDown s.get_count)) ∧
      s.handle_key (key 'k') = (s, some (VimCommand.MoveUp s.get_count)) ∧
      s.handle_key (key 'l') = (s, some (VimCommand.MoveRight s.get_count)) ∧
      (s.handle_key (key ':')).1 =
        { s with mode := VimMode.Command, command_buffer := [] } ∧
      (s.handle_key (key 'i')).1 =
        { s with mode := VimMode.Insert, command_buffer := [], count := none } ∧
      (s.handle_key (key 'v')).1 =
        { s with mode := VimMode.Visual, command_buffer := [], count := none } := by
  obtain ⟨m, buf, reg, cnt⟩ := s
  have hm2 : m = VimMode.Normal := hm
  subst hm2
  exact ⟨rfl, rfl, rfl, rfl, rfl, rfl, rfl⟩

/-- C2 amended witness: a concrete Normal-mode state with pending count 3
keeps its count through a motion and through the colon transition. -/
theorem C2_amended_witness :
    (VimState.mk VimMode.Normal [] none (some 3)).mode = VimMode.Normal ∧
      (VimState.mk VimMode.Normal [] none (some 3)).handle_key (key 'j') =
        (VimState.mk VimMode.Normal [] none (some 3), some (VimCommand.MoveDown 3)) :=
  ⟨rfl, (C2_amended (VimState.mk VimMode.Normal [] none (some 3)) rfl).2.1⟩

/-- Every single key step preserves the buffer invariant. -/
theorem handle_key_bufferInv (s : VimState) (k : KeyEvent) (h : bufferInv s) :
    bufferInv (s.handle_key k).1 := by
  obtain ⟨m, buf, reg, cnt⟩ := s
  obtain ⟨code, ctrl⟩ := k
  cases m with
  | Normal =>
    have hbuf : buf = [] ∨ buf = ['g'] := h (by simp)
    cases ctrl with
    | true =>
      cases code with
      | char c =>
        dsimp only [VimState.handle_key, VimState.handle_normal_mode]
        rw [if_pos rfl]
        split_ifs <;> (intro _ ; exact hbuf)
      | left => intro _ ; exact hbuf
      | right => intro _ ; exact hbuf
      | up => intro _ ; exact hbuf
      | down => intro _ ; exact hbuf
      | esc => intro _ ; exact hbuf
      | enter => intro _ ; exact hbuf
      | backspace => intro _ ; exact hbuf
      | tab => intro _ ; exact hbuf
      | backTab => intro _ ; exact hbuf
      | other => intro _ ; exact hbuf
    | false =>
      cases code with
      | char c =>
        dsimp only [VimState.handle_key, VimState.handle_normal_mode]
        rw [if_neg Bool.false_ne_true]
        unfold VimState.handle_normal_char
        split
        all_goals
          first
            | (intro h2 ; refine absurd ?_ h2 ; rfl)
            | (intro _ ; exact hbuf)
            | (intro _ ; left ; rfl)
            | (split_ifs with hg <;>
                first
                  | (intro _ ; exact hbuf)
                  | (intro _ ; left ; rfl)
                  | (intro _ ;
                      rcases hbuf with hb | hb ;
                      (subst hb ; right ; rfl) ;
                      (subst hb ; simp at hg)))
      | left => intro _ ; exact hbuf
      | right => intro _ ; exact hbuf
      | up => intro _ ; exact hbuf
      | down => intro _ ; exact hbuf
      | esc => intro _ ; exact hbuf
      | enter => intro _ ; exact hbuf
      | backspace => intro _ ; exact hbuf
      | tab => intro _ ; exact hbuf
      | backTab => intro _ ; exact hbuf
      | other => intro _ ; exact hbuf
  | Insert =>
    have hbuf : buf = [] ∨ buf = ['g'] := h (by simp)
    cases code <;>
      first
        | (intro _ ; left ; rfl)
        | (intro _ ; exact hbuf)
  | Visual =>
    have hbuf : buf = [] ∨ buf = ['g'] := h (by simp)
    cases code <;>
      dsimp only [VimState.handle_key, VimState.handle_visual_mode] <;>
      first
        | (split_ifs <;> first | (intro _ ; left ; rfl) | (intro _ ; exact hbuf))
        | (intro _ ; left ; rfl)
        | (intro _ ; exact hbuf)
  | Command =>
    cases code with
    | esc => intro _ ; left ; rfl
    | enter => intro _ ; left ; rfl
    | char c =>
      intro h2
      refine absurd ?_ h2
      rfl
    | backspace =>
      dsimp only [VimState.handle_key, VimState.handle_command_mode]
      split_ifs with hbb
      · intro _ ; left ; rfl
      · intro h2 ; refine absurd ?_ h2 ; rfl
    | left => intro h2 ; exact absurd rfl h2
    | right => intro h2 ; exact absurd rfl h2
    | up => intro h2 ; exact absurd rfl h2
    | down => intro h2 ; exact absurd rfl h2
    | tab => intro h2 ; exact absurd rfl h2
    | backTab => intro h2 ; exact absurd rfl h2
    | other => intro h2 ; exact absurd rfl h2

/-- The buffer invariant holds after any key sequence from any state
satisfying it. -/
theorem process_keys_bufferInv (keys : List KeyEvent) (s : VimState) (h : bufferInv s) :
    bufferInv (VimState.process_keys keys s) := by
  induction keys generalizing s with
  | nil => exact h
  | cons k rest ih => exact ih _ (handle_key_bufferInv s k h)

/-- C5 counterexample: after the single key g from the initial state the
mode is not Command, yet the command buffer is non-empty (it holds the
pending g prefix), refuting the claim that the buffer is empty whenever
the mode is not Command. -/
theorem C5_counterexample :
    (VimState.process_keys [key 'g'] VimState.new).mode ≠ VimMode.Command ∧
      (VimState.process_keys [key 'g'] VimState.new).command_buffer ≠ [] := by
  decide

/-- C5 amended: after any key sequence from the initial state, the mode is
one of the four modal states (structurally guaranteed by the VimMode
type), and whenever the mode is not Command the command buffer is either
empty or exactly the single pending g prefix. -/
theorem C5_amended (keys : List KeyEvent)
    (h : (VimState.process_keys keys VimState.new).mode ≠ VimMode.Command) :
    (VimState.process_keys keys VimState.new).command_buffer = [] ∨
      (VimState.process_keys keys VimState.new).command_buffer = ['g'] :=
  process_keys_bufferInv keys VimState.new (fun _ => Or.inl rfl) h

/-- C5 amended witness at the concrete key sequence consisting of the
single key g. -/
theorem C5_amended_witness :
    (VimState.process_keys [key 'g'] VimState.new).mode ≠ VimMode.Command ∧
      ((VimState.process_keys [key 'g'] VimState.new).command_buffer = [] ∨
        (VimState.process_keys [key 'g'] VimState.new).command_buffer = ['g']) :=
  ⟨by decide, C5_amended [key 'g'] (by decide)⟩

/-- C9 counterexample: pressing the colon key from the initial state
transitions to Command mode and emits EnterCommandMode, but the command
buffer afterwards is empty, not the seeded string consisting of the colon
character that the claim requires. -/
theorem C9_counterexample :
    (VimState.new.handle_key (key ':')).2 = some VimCommand.EnterCommandMode ∧
      (VimState.new.handle_key (key ':')).1.mode = VimMode.Command ∧
      (VimState.new.handle_key (key ':')).1.command_buffer ≠ [':'] := by
  decide

/-- C9 amended: in Normal mode the colon key transitions to Command mode
with an EMPTY command buffer (the colon prompt character is not stored in
the buffer) and emits EnterCommandMode, while the slash key transitions
to Command mode with the buffer seeded to the single slash character and
emits StartSearch. -/
theorem C9_amended (s : VimState) (hm : s.mode = VimMode.Normal) :
    s.handle_key (key ':') =
        ({ s with mode := VimMode.Command, command_buffer := [] },
          some VimCommand.EnterCommandMode) ∧
      s.handle_key (key '/') =
        ({ s with mode := VimMode.Command, command_buffer := ['/'] },
          some VimCommand.StartSearch) := by
  obtain ⟨m, buf, reg, cnt⟩ := s
  have hm2 : m = VimMode.Normal := hm
  subst hm2
  exact ⟨rfl, rfl⟩

/-- C9 amended witness at the initial state. -/
theorem C9_amended_witness :
    VimState.new.mode = VimMode.Normal ∧
      VimState.new.handle_key (key ':') =
        ({ VimState.new with mode := VimMode.Command, command_buffer := [] },
          some VimCommand.EnterCommandMode) :=
  ⟨rfl, (C9_amended VimState.new rfl).1⟩

end VimTheorems

section AppTheorems

/-- C7: the three panes form the fixed ring Browser to Editor to Results
and back: NextPane then PrevPane (and PrevPane then NextPane) restore the
active pane, NextPane advances one ring step, and after either transition
exactly one pane has its focused flag raised, all three flags being
recomputed from the new active pane in the same update. -/
theorem C7_pane_ring (s : App) :
    ((s.next_pane).prev_pane).active_pane = s.active_pane ∧
      ((s.prev_pane).next_pane).active_pane = s.active_pane ∧
      (s.active_pane = Pane.DatabaseBrowser →
        (s.next_pane).active_pane = Pane.QueryEditor) ∧
      (s.active_pane = Pane.QueryEditor → (s.next_pane).active_pane = Pane.Results) ∧
      (s.active_pane = Pane.Results → (s.next_pane).active_pane = Pane.DatabaseBrowser) ∧
      focusCount s.next_pane = 1 ∧
      focusCount s.prev_pane = 1 ∧
      (s.next_pane).database_browser.focused =
        decide ((s.next_pane).active_pane = Pane.DatabaseBrowser) ∧
      (s.next_pane).query_editor.focused =
        decide ((s.next_pane).active_pane = Pane.QueryEditor) ∧
      (s.next_pane).results_viewer.focused =
        decide ((s.next_pane).active_pane = Pane.Results) := by
  cases h : s.active_pane <;>
    simp [App.next_pane, App.prev_pane, App.update_focus, focusCount, h]

/-- C7 witness: the ring behaviour at the concrete initial state, whose
active pane is the Browser. -/
theorem C7_pane_ring_witness :
    App.initial.active_pane = Pane.DatabaseBrowser ∧
      (App.initial.next_pane).active_pane = Pane.QueryEditor ∧
      ((App.initial.next_pane).prev_pane).active_pane = App.initial.active_pane ∧
      focusCount App.initial.next_pane = 1 :=
  ⟨rfl, (C7_pane_ring App.initial).2.2.1 rfl, (C7_pane_ring App.initial).1,
    (C7_pane_ring App.initial).2.2.2.2.2.1⟩

/-- C6: dispatching ExitInsertMode while the Results pane is focused in
cell-edit sub-mode (and not in row-insert sub-mode) returns the modal
state to Normal and commits the edit buffer into the modification map at
the selected row and column, and changes nothing else: in particular the
edit_mode flag and every other pane sub-mode flag survive unchanged. -/
theorem C6_exit_insert_commits (env : Env) (s : App)
    (hp : s.active_pane = Pane.Results) (he : s.results_viewer.edit_mode = true)
    (hi : s.results_viewer.insert_mode = false) :
    s.execute_vim_command env VimCommand.ExitInsertMode =
      ({ s with
          vim_state := s.vim_state.enter_normal_mode
          results_viewer := { s.results_viewer with
            modified_cells := alInsert s.results_viewer.modified_cells
              (s.results_viewer.table_state.getD 0, s.results_viewer.selected_column)
              s.results_viewer.edit_buffer } }, true) ∧
      (s.execute_vim_command env VimCommand.ExitInsertMode).1.vim_state.mode =
        VimMode.Normal ∧
      (s.execute_vim_command env VimCommand.ExitInsertMode).1.results_viewer.edit_mode =
        true := by
  constructor
  · simp [App.execute_vim_command, hp, he, hi, ResultsViewer.save_cell_edit]
  constructor
  · simp [App.execute_vim_command, hp, he, hi, ResultsViewer.save_cell_edit,
      VimState.enter_normal_mode, VimState.reset_state]
  · simp [App.execute_vim_command, hp, he, hi, ResultsViewer.save_cell_edit]

/-- C6 witness at a concrete editing state. -/
theorem C6_exit_insert_commits_witness :
    fixtureAppEditing.active_pane = Pane.Results ∧
      fixtureAppEditing.results_viewer.edit_mode = true ∧
      fixtureAppEditing.results_viewer.insert_mode = false ∧
      (fixtureAppEditing.execute_vim_command trivEnv
          VimCommand.ExitInsertMode).1.vim_state.mode = VimMode.Normal :=
  ⟨rfl, rfl, rfl,
    (C6_exit_insert_commits trivEnv fixtureAppEditing rfl rfl rfl).2.1⟩

/-- Looking up the inserted key finds the inserted value. -/
theorem alLookup_alInsert_same {α β : Type} [DecidableEq α] (m : List (α × β)) (k : α)
    (v : β) : alLookup (alInsert m k v) k = some v := by
  induction m with
  | nil => simp [alInsert, alLookup]
  | cons p rest ih =>
    obtain ⟨k0, v0⟩ := p
    by_cases h : k0 = k
    · simp [alInsert, alLookup, h]
    · simp [alInsert, alLookup, h, ih]

/-- Looking up a different key is unaffected by an insert. -/
theorem alLookup_alInsert_ne {α β : Type} [DecidableEq α] (m : List (α × β)) (k k2 : α)
    (v : β) (h : ¬(k2 = k)) : alLookup (alInsert m k v) k2 = alLookup m k2 := by
  induction m with
  | nil =>
    have h2 : ¬(k = k2) := fun hh => h hh.symm
    simp [alInsert, alLookup, h2]
  | cons p rest ih =>
    obtain ⟨k0, v0⟩ := p
    by_cases h0 : k0 = k
    · subst h0
      have h2 : ¬(k0 = k2) := fun hh => h hh.symm
      simp [alInsert, alLookup, h2]
    · by_cases h2 : k0 = k2
      · simp [alInsert, alLookup, h0, h2, h]
      · simp [alInsert, alLookup, h0, h2, ih]

/-- C10: with the connection manager hidden, the Results pane active and
none of its four editing sub-mode flags raised, a plain digit key 1, 2 or
3 switches the Results tab (to Data, Schema or Indexes respectively) and
is consumed there: the vim state machine is never invoked, so the key
cannot start or extend a pending repeat count. -/
theorem C10_results_tab_keys (env : Env) (s : App) (c : Char)
    (hv : s.connection_manager.visible = false)
    (hp : s.active_pane = Pane.Results)
    (h1 : s.results_viewer.edit_mode = false)
    (h2 : s.results_viewer.insert_mode = false)
    (h3 : s.results_viewer.schema_edit_mode = false)
    (h4 : s.results_viewer.schema_insert_mode = false)
    (hc : c = '1' ∨ c = '2' ∨ c = '3') :
    s.handle_key_event env ⟨KeyCode.char c, false⟩ =
      ⟨{ s with results_viewer := { s.results_viewer with active_tab :=
          if c = '1' then TabMode.Data
          else if c = '2' then TabMode.Schema
          else TabMode.Indexes } }, true, false, none⟩ ∧
      (s.handle_key_event env ⟨KeyCode.char c, false⟩).state.vim_state = s.vim_state ∧
      (s.handle_key_event env ⟨KeyCode.char c, false⟩).state.vim_state.count =
        s.vim_state.count := by
  rcases hc with rfl | rfl | rfl <;>
    refine ⟨?_, ?_, ?_⟩ <;>
    simp [App.handle_key_event, hv, hp, h1, h2, h3, h4,
      ResultsViewer.switch_to_data_tab, ResultsViewer.switch_to_schema_tab,
      ResultsViewer.switch_to_indexes_tab]

/-- C10 witness: the digit key 2 at the concrete Results-focused fixture
state switches to the schema tab without invoking the vim machine. -/
theorem C10_results_tab_keys_witness :
    fixtureApp.connection_manager.visible = false ∧
      fixtureApp.active_pane = Pane.Results ∧
      (('2' : Char) = '1' ∨ ('2' : Char) = '2' ∨ ('2' : Char) = '3') ∧
      (fixtureApp.handle_key_event trivEnv ⟨KeyCode.char '2', false⟩).state.vim_state =
        fixtureApp.vim_state :=
  ⟨rfl, rfl, Or.inr (Or.inl rfl),
    (C10_results_tab_keys trivEnv fixtureApp '2' rfl rfl rfl rfl rfl rfl
      (Or.inr (Or.inl rfl))).2.1⟩

/-- C4 counterexample: in the concrete fixture (cell value x at row 0
column 0), entering cell-edit mode, typing a b c and moving right stores
the string xabc, not abc, under the original key: the edit buffer is
seeded with the prior cell value when the edit sub-mode is entered. -/
theorem C4_counterexample :
    alLookup ((dispatchList trivEnv c4Commands fixtureApp).results_viewer.modified_cells)
        (0, 0) = some (strL "xabc") ∧
      ¬(alLookup ((dispatchList trivEnv c4Commands
          fixtureApp).results_viewer.modified_cells) (0, 0) = some (strL "abc")) := by
  constructor
  · rfl
  · decide

/-- Typing a character in Insert mode with the Results pane focused in an
edit sub-mode appends it to the edit buffer. -/
theorem exec_insert_char_results_edit (env : Env) (t : App) (c : Char)
    (hp2 : t.active_pane = Pane.Results) (hm : t.vim_state.mode = VimMode.Insert)
    (he : t.results_viewer.edit_mode = true) :
    (t.execute_vim_command env (VimCommand.InsertChar c)).1 =
      { t with results_viewer := { t.results_viewer with
          edit_buffer := t.results_viewer.edit_buffer ++ [c] } } := by
  simp [App.execute_vim_command, hp2, hm, he, ResultsViewer.edit_insert_char]

/-- C4 amended: under the same scenario the modification map receives the
cell's prior value with abc appended (the buffer is seeded with the
current cell value on entering edit mode, and typed characters append),
and after the move the buffer holds the next column's prior value when
the row has one, with the column pointer on the next column. -/
theorem C4_amended (env : Env) (s : App) (r : Nat) (row : List (List Char))
    (v0 v1 : List Char) (res : QueryResult)
    (hp : s.active_pane = Pane.Results)
    (ht : s.results_viewer.active_tab = TabMode.Data)
    (hi : s.results_viewer.insert_mode = false)
    (hres : s.results_viewer.result = some res)
    (hsel : s.results_viewer.table_state = some r)
    (hm0 : alLookup s.results_viewer.modified_cells (r, 0) = none)
    (hm1 : alLookup s.results_viewer.modified_cells (r, 1) = none)
    (hrow : res.rows[r]? = some row)
    (hv0 : row[0]? = some v0)
    (hv1 : row[1]? = some v1)
    (hcols : 2 ≤ res.columns.length) :
    alLookup ((dispatchList env c4Commands s).results_viewer.modified_cells) (r, 0) =
        some (v0 ++ strL "abc") ∧
      (dispatchList env c4Commands s).results_viewer.edit_buffer = v1 ∧
      (dispatchList env c4Commands s).results_viewer.selected_column = 1 := by
  have hguard : 0 < res.columns.length - 1 := by omega
  have hstep1 : (s.execute_vim_command env VimCommand.EnterEditMode).1 =
      { s with
        results_viewer := { s.results_viewer with
          edit_mode := true
          selected_column := 0
          edit_buffer := v0 }
        vim_state := s.vim_state.enter_insert_mode } := by
    simp [App.execute_vim_command, hp, ht, ResultsViewer.enter_edit_mode,
      ResultsViewer.get_current_cell_value, hsel, hm0, hres, hrow, hv0]
  have habc : strL "abc" = ['a', 'b', 'c'] := rfl
  simp only [dispatchList, c4Commands, List.foldl]
  rw [hstep1]
  rw [exec_insert_char_results_edit env _ 'a' (by simp [hp])
    (by simp [VimState.enter_insert_mode, VimState.reset_state]) (by simp)]
  rw [exec_insert_char_results_edit env _ 'b' (by simp [hp])
    (by simp [VimState.enter_insert_mode, VimState.reset_state]) (by simp)]
  rw [exec_insert_char_results_edit env _ 'c' (by simp [hp])
    (by simp [VimState.enter_insert_mode, VimState.reset_state]) (by simp)]
  refine ⟨?_, ?_, ?_⟩ <;>
    simp [App.execute_vim_command, hp, hi, hres, hsel, hm1, hrow, hv1, hguard,
      ResultsViewer.edit_right_step, ResultsViewer.save_cell_edit,
      ResultsViewer.move_column_right, ResultsViewer.get_current_cell_value,
      alLookup_alInsert_same, alLookup_alInsert_ne, apply_ite, habc,
      Function.iterate_one, List.append_assoc]

/-- C4 amended witness at the concrete fixture: the prior cell value x
leads to the stored value xabc and the buffer picks up the next column's
value y. -/
theorem C4_amended_witness :
    fixtureApp.active_pane = Pane.Results ∧ 2 ≤ fixtureResult.columns.length ∧
      alLookup ((dispatchList trivEnv c4Commands
          fixtureApp).results_viewer.modified_cells) (0, 0) =
        some (strL "x" ++ strL "abc") ∧
      (dispatchList trivEnv c4Commands fixtureApp).results_viewer.edit_buffer =
        strL "y" :=
  ⟨rfl, by decide,
    (C4_amended trivEnv fixtureApp 0 [strL "x", strL "y"] (strL "x") (strL "y")
      fixtureResult rfl rfl rfl rfl rfl rfl rfl rfl rfl rfl (by decide)).1,
    (C4_amended trivEnv fixtureApp 0 [strL "x", strL "y"] (strL "x") (strL "y")
      fixtureResult rfl rfl rfl rfl rfl rfl rfl rfl rfl rfl (by decide)).2.1⟩

/-- set_tables never touches the focused flag. -/
theorem set_tables_focused (db : DatabaseBrowser) (t : List TableInfo) :
    (db.set_tables t).focused = db.focused := by
  dsimp only [DatabaseBrowser.set_tables]
  split_ifs <;> rfl

/-- add_connection never touches the focused flag. -/
theorem add_connection_focused (db : DatabaseBrowser) (c : ConnectionInfo) :
    (db.add_connection c).focused = db.focused := rfl

/-- update_selection never touches the focused flag. -/
theorem update_selection_focused (db : DatabaseBrowser) (i : Nat) :
    (db.update_selection i).focused = db.focused := by
  dsimp only [DatabaseBrowser.update_selection]
  split_ifs <;> rfl

/-- update_selection_filtered never touches the focused flag. -/
theorem update_selection_filtered_focused (db : DatabaseBrowser) (i : Nat) :
    (db.update_selection_filtered i).focused = db.focused := by
  dsimp only [DatabaseBrowser.update_selection_filtered]
  split_ifs <;> first | rfl | (split <;> rfl)

/-- remove_connection never touches the focused flag. -/
theorem remove_connection_focused (db : DatabaseBrowser) (id : Nat) :
    (db.remove_connection id).focused = db.focused := by
  dsimp only [DatabaseBrowser.remove_connection]
  split
  · rfl
  · split_ifs <;> simp [update_selection_focused]

/-- Updating the connection manager leaves the vim path state unchanged. -/
theorem vpf_with_cm (t : App) (x : ConnectionManager) :
    vpf { t with connection_manager := x } = vpf t := rfl

/-- Updating the configuration leaves the vim path state unchanged. -/
theorem vpf_with_config (t : App) (x : Config) :
    vpf { t with config := x } = vpf t := rfl

/-- Updating the connection id list leaves the vim path state unchanged. -/
theorem vpf_with_conns (t : App) (x : List Nat) :
    vpf { t with connections := x } = vpf t := rfl

/-- Updating the id counter leaves the vim path state unchanged. -/
theorem vpf_with_nid (t : App) (x : Nat) :
    vpf { t with next_connection_id := x } = vpf t := rfl

/-- A browser update preserving the focused flag leaves the vim path
state unchanged. -/
theorem vpf_with_db (t : App) (x : DatabaseBrowser)
    (h : x.focused = t.database_browser.focused) :
    vpf { t with database_browser := x } = vpf t := by
  simp [vpf, h]

/-- A results-viewer update preserving the focused flag leaves the vim
path state unchanged. -/
theorem vpf_with_rv (t : App) (x : ResultsViewer)
    (h : x.focused = t.results_viewer.focused) :
    vpf { t with results_viewer := x } = vpf t := by
  simp [vpf, h]

/-- Opening a database changes only browser content, connection ids and
configuration: the vim path state survives. -/
theorem vpf_open_database (s : App) (env : Env) (cs : List Char) (dt : DatabaseType)
    (b : Bool) : vpf (s.open_database_with_save env cs dt b).1 = vpf s := by
  unfold App.open_database_with_save
  repeat' split
  all_goals (try split_ifs)
  all_goals simp [vpf, apply_ite, set_tables_focused, add_connection_focused]

/-- The five vim path components survive opening a database, stated
separately so they can rewrite inside larger states. -/
theorem open_database_comps (s : App) (env : Env) (cs : List Char) (dt : DatabaseType)
    (b : Bool) :
    (s.open_database_with_save env cs dt b).1.vim_state = s.vim_state ∧
      (s.open_database_with_save env cs dt b).1.active_pane = s.active_pane ∧
      (s.open_database_with_save env cs dt b).1.database_browser.focused =
        s.database_browser.focused ∧
      (s.open_database_with_save env cs dt b).1.query_editor.focused =
        s.query_editor.focused ∧
      (s.open_database_with_save env cs dt b).1.results_viewer.focused =
        s.results_viewer.focused := by
  have h := vpf_open_database s env cs dt b
  exact ⟨congrArg (fun p => p.1) h, congrArg (fun p => p.2.1) h,
    congrArg (fun p => p.2.2.1) h, congrArg (fun p => p.2.2.2.1) h,
    congrArg (fun p => p.2.2.2.2) h⟩

/-- Testing a connection only records a message in the connection
manager. -/
theorem vpf_test_connection (s : App) (env : Env) (cs : List Char) (dt : DatabaseType) :
    vpf (s.test_connection env cs dt).1 = vpf s := by
  unfold App.test_connection
  split_ifs <;> simp [vpf]

/-- The five vim path components survive testing a connection. -/
theorem test_connection_comps (s : App) (env : Env) (cs : List Char) (dt : DatabaseType) :
    (s.test_connection env cs dt).1.vim_state = s.vim_state ∧
      (s.test_connection env cs dt).1.active_pane = s.active_pane ∧
      (s.test_connection env cs dt).1.database_browser.focused =
        s.database_browser.focused ∧
      (s.test_connection env cs dt).1.query_editor.focused = s.query_editor.focused ∧
      (s.test_connection env cs dt).1.results_viewer.focused =
        s.results_viewer.focused := by
  have h := vpf_test_connection s env cs dt
  exact ⟨congrArg (fun p => p.1) h, congrArg (fun p => p.2.1) h,
    congrArg (fun p => p.2.2.1) h, congrArg (fun p => p.2.2.2.1) h,
    congrArg (fun p => p.2.2.2.2) h⟩

/-- Saving the connection form touches only the configuration and the
connection manager. -/
theorem vpf_save_form (s : App) (env : Env) :
    vpf (s.save_connection_from_form env).1 = vpf s := by
  unfold App.save_connection_from_form
  dsimp only
  repeat' split
  all_goals (try split_ifs)
  all_goals simp [vpf, apply_ite]

/-- The five vim path components survive saving the connection form. -/
theorem save_form_comps (s : App) (env : Env) :
    (s.save_connection_from_form env).1.vim_state = s.vim_state ∧
      (s.save_connection_from_form env).1.active_pane = s.active_pane ∧
      (s.save_connection_from_form env).1.database_browser.focused =
        s.database_browser.focused ∧
      (s.save_connection_from_form env).1.query_editor.focused =
        s.query_editor.focused ∧
      (s.save_connection_from_form env).1.results_viewer.focused =
        s.results_viewer.focused := by
  have h := vpf_save_form s env
  exact ⟨congrArg (fun p => p.1) h, congrArg (fun p => p.2.1) h,
    congrArg (fun p => p.2.2.1) h, congrArg (fun p => p.2.2.2.1) h,
    congrArg (fun p => p.2.2.2.2) h⟩

/-- Every list-mode connection-manager action preserves the vim path
state. -/
theorem vpf_handle_cm_action (s : App) (env : Env) (c : Char) :
    vpf (s.handle_cm_action env c).1 = vpf s := by
  unfold App.handle_cm_action
  repeat' split
  all_goals (try split_ifs)
  all_goals simp [vpf, apply_ite, open_database_comps, test_connection_comps]

/-- The five vim path components survive a list-mode action. -/
theorem handle_cm_action_comps (s : App) (env : Env) (c : Char) :
    (s.handle_cm_action env c).1.vim_state = s.vim_state ∧
      (s.handle_cm_action env c).1.active_pane = s.active_pane ∧
      (s.handle_cm_action env c).1.database_browser.focused =
        s.database_browser.focused ∧
      (s.handle_cm_action env c).1.query_editor.focused = s.query_editor.focused ∧
      (s.handle_cm_action env c).1.results_viewer.focused =
        s.results_viewer.focused := by
  have h := vpf_handle_cm_action s env c
  exact ⟨congrArg (fun p => p.1) h, congrArg (fun p => p.2.1) h,
    congrArg (fun p => p.2.2.1) h, congrArg (fun p => p.2.2.2.1) h,
    congrArg (fun p => p.2.2.2.2) h⟩

/-- Every key handled by the visible connection manager preserves the vim
path state. -/
theorem vpf_handle_cm_key (s : App) (env : Env) (k : KeyEvent) :
    vpf (s.handle_cm_key env k).1 = vpf s := by
  unfold App.handle_cm_key
  repeat' split
  all_goals (try split_ifs)
  all_goals
    simp [vpf, apply_ite, handle_cm_action_comps, test_connection_comps,
      save_form_comps, open_database_comps]

/-- C8: while the connection manager overlay is visible it owns key
handling exclusively: the vim state machine is never invoked and no
command is dispatched, the whole event is handled by the
connection-manager branch, and the modal state, the active pane and the
three focused flags are untouched; plain characters reach the manager as
list actions or form data entry through that branch. -/
theorem C8_cm_owns_keys (env : Env) (s : App) (k : KeyEvent)
    (hv : s.connection_manager.visible = true) :
    (s.handle_key_event env k).vimInvoked = false ∧
      (s.handle_key_event env k).vimDispatched = none ∧
      vpf (s.handle_key_event env k).state = vpf s ∧
      (s.handle_key_event env k).state = (s.handle_cm_key env k).1 ∧
      (s.handle_key_event env k).ok = (s.handle_cm_key env k).2 := by
  have h1 : s.handle_key_event env k =
      ⟨(s.handle_cm_key env k).1, (s.handle_cm_key env k).2, false, none⟩ := by
    simp [App.handle_key_event, hv]
  rw [h1]
  exact ⟨rfl, rfl, vpf_handle_cm_key s env k, rfl, rfl⟩

/-- C8 witness at a concrete state with the overlay visible and the plain
character key j. -/
theorem C8_cm_owns_keys_witness :
    fixtureAppCm.connection_manager.visible = true ∧
      (fixtureAppCm.handle_key_event trivEnv (key 'j')).vimInvoked = false ∧
      vpf (fixtureAppCm.handle_key_event trivEnv (key 'j')).state = vpf fixtureAppCm :=
  ⟨rfl, (C8_cm_owns_keys trivEnv fixtureAppCm (key 'j') rfl).1,
    (C8_cm_owns_keys trivEnv fixtureAppCm (key 'j') rfl).2.2.1⟩

end AppTheorems

section MoveTheorems

/-- A batched move never changes the active results tab. -/
theorem rv_move_up_tab (c : Nat) (rv : ResultsViewer) :
    (ResultsViewer.move_up c rv).active_tab = rv.active_tab := by
  unfold ResultsViewer.move_up ResultsViewer.clear_status_message
  dsimp only
  repeat' split
  all_goals rfl

/-- A batched move never changes the active results tab. -/
theorem rv_move_down_tab (c : Nat) (rv : ResultsViewer) :
    (ResultsViewer.move_down c rv).active_tab = rv.active_tab := by
  unfold ResultsViewer.move_down ResultsViewer.clear_status_message
  dsimp only
  repeat' split
  all_goals rfl

/-- A schema row move never changes the active results tab. -/
theorem schema_up_tab (rv : ResultsViewer) :
    (rv.schema_move_up).active_tab = rv.active_tab := by
  unfold ResultsViewer.schema_move_up
  dsimp only
  repeat' split
  all_goals rfl

/-- A schema row move never changes the active results tab. -/
theorem schema_down_tab (rv : ResultsViewer) :
    (rv.schema_move_down).active_tab = rv.active_tab := by
  unfold ResultsViewer.schema_move_down
  dsimp only
  repeat' split
  all_goals rfl

/-- Moving the column pointer left never toggles the cell-edit flag. -/
theorem mcl_edit (rv : ResultsViewer) :
    (rv.move_column_left).edit_mode = rv.edit_mode := by
  unfold ResultsViewer.move_column_left
  dsimp only
  repeat' split
  all_goals rfl

/-- Moving the column pointer left never toggles the row-insert flag. -/
theorem mcl_insert (rv : ResultsViewer) :
    (rv.move_column_left).insert_mode = rv.insert_mode := by
  unfold ResultsViewer.move_column_left
  dsimp only
  repeat' split
  all_goals rfl

/-- Moving the column pointer right never toggles the cell-edit flag. -/
theorem mcr_edit (rv : ResultsViewer) :
    (rv.move_column_right).edit_mode = rv.edit_mode := by
  unfold ResultsViewer.move_column_right
  dsimp only
  repeat' split
  all_goals rfl

/-- Moving the column pointer right never toggles the row-insert flag. -/
theorem mcr_insert (rv : ResultsViewer) :
    (rv.move_column_right).insert_mode = rv.insert_mode := by
  unfold ResultsViewer.move_column_right
  dsimp only
  repeat' split
  all_goals rfl

/-- The cell-edit left loop body keeps the cell-edit flag. -/
theorem edit_left_step_edit (rv : ResultsViewer) :
    (rv.edit_left_step).edit_mode = rv.edit_mode := by
  simp [ResultsViewer.edit_left_step, mcl_edit, ResultsViewer.save_cell_edit]

/-- The cell-edit right loop body keeps the cell-edit flag. -/
theorem edit_right_step_edit (rv : ResultsViewer) :
    (rv.edit_right_step).edit_mode = rv.edit_mode := by
  simp [ResultsViewer.edit_right_step, mcr_edit, ResultsViewer.save_cell_edit]

/-- The row-insert left loop body keeps the cell-edit flag. -/
theorem insert_left_step_edit (rv : ResultsViewer) :
    (rv.insert_left_step).edit_mode = rv.edit_mode := by
  simp [ResultsViewer.insert_left_step, mcl_edit, ResultsViewer.save_insert_field]

/-- The row-insert left loop body keeps the row-insert flag. -/
theorem insert_left_step_insert (rv : ResultsViewer) :
    (rv.insert_left_step).insert_mode = rv.insert_mode := by
  simp [ResultsViewer.insert_left_step, mcl_insert, ResultsViewer.save_insert_field]

/-- The row-insert right loop body keeps the cell-edit flag. -/
theorem insert_right_step_edit (rv : ResultsViewer) :
    (rv.insert_right_step).edit_mode = rv.edit_mode := by
  simp [ResultsViewer.insert_right_step, mcr_edit, ResultsViewer.save_insert_field]

/-- The row-insert right loop body keeps the row-insert flag. -/
theorem insert_right_step_insert (rv : ResultsViewer) :
    (rv.insert_right_step).insert_mode = rv.insert_mode := by
  simp [ResultsViewer.insert_right_step, mcr_insert, ResultsViewer.save_insert_field]

/-- Iterating two functions that agree on an invariant set gives the same
orbit from any point of the set. -/
theorem iterate_congr_of_inv {α : Type} (f g : α → α) (P : α → Prop)
    (hg : ∀ t, P t → P (g t)) (hfg : ∀ t, P t → f t = g t) :
    ∀ (n : Nat) (s : α), P s → f^[n] s = g^[n] s := by
  intro n
  induction n with
  | zero => intro s _; rfl
  | succ m ih =>
    intro s hs
    rw [Function.iterate_succ_apply, Function.iterate_succ_apply, hfg s hs]
    exact ih _ (hg s hs)

/-- Iterating a browser update on the whole state is the update by the
iterated browser function. -/
theorem iterate_db_lift (step : DatabaseBrowser → DatabaseBrowser) (n : Nat) :
    ∀ s : App,
      (fun t : App => { t with database_browser := step t.database_browser })^[n] s =
        { s with database_browser := step^[n] s.database_browser } := by
  induction n with
  | zero => intro s; rfl
  | succ m ih =>
    intro s
    rw [Function.iterate_succ_apply', Function.iterate_succ_apply', ih]

/-- Iterating an editor update on the whole state is the update by the
iterated editor function. -/
theorem iterate_qe_lift (step : QueryEditor → QueryEditor) (n : Nat) :
    ∀ s : App,
      (fun t : App => { t with query_editor := step t.query_editor })^[n] s =
        { s with query_editor := step^[n] s.query_editor } := by
  induction n with
  | zero => intro s; rfl
  | succ m ih =>
    intro s
    rw [Function.iterate_succ_apply', Function.iterate_succ_apply', ih]

/-- Iterating a results-viewer update on the whole state is the update by
the iterated viewer function. -/
theorem iterate_rv_lift (step : ResultsViewer → ResultsViewer) (n : Nat) :
    ∀ s : App,
      (fun t : App => { t with results_viewer := step t.results_viewer })^[n] s =
        { s with results_viewer := step^[n] s.results_viewer } := by
  induction n with
  | zero => intro s; rfl
  | succ m ih =>
    intro s
    rw [Function.iterate_succ_apply', Function.iterate_succ_apply', ih]

/-- One more single row move up after a batch of n is the batch of n+1:
saturating subtraction composes. -/
theorem rv_move_up_comp (n : Nat) (rv : ResultsViewer) :
    ResultsViewer.move_up 1 (ResultsViewer.move_up n rv) =
      ResultsViewer.move_up (n + 1) rv := by
  cases hres : rv.result with
  | none => simp [ResultsViewer.move_up, ResultsViewer.clear_status_message, hres]
  | some res =>
    by_cases hrows : res.rows = []
    · simp [ResultsViewer.move_up, ResultsViewer.clear_status_message, hres, hrows]
    · simp [ResultsViewer.move_up, ResultsViewer.clear_status_message, hres, hrows]
      all_goals omega

/-- One more single row move down after a batch of n is the batch of n+1:
the clamped addition composes. -/
theorem rv_move_down_comp (n : Nat) (rv : ResultsViewer) :
    ResultsViewer.move_down 1 (ResultsViewer.move_down n rv) =
      ResultsViewer.move_down (n + 1) rv := by
  cases hres : rv.result with
  | none => simp [ResultsViewer.move_down, ResultsViewer.clear_status_message, hres]
  | some res =>
    by_cases hrows : res.rows = []
    · simp [ResultsViewer.move_down, ResultsViewer.clear_status_message, hres, hrows]
    · simp [ResultsViewer.move_down, ResultsViewer.clear_status_message, hres, hrows]
      all_goals omega

/-- For a positive count the batched row move up equals the iterated
single row move up. -/
theorem rv_move_up_batch (n : Nat) (h : 1 ≤ n) (rv : ResultsViewer) :
    ResultsViewer.move_up n rv = (ResultsViewer.move_up 1)^[n] rv := by
  induction n, h using Nat.le_induction with
  | base => rw [Function.iterate_one]
  | succ m hm ih => rw [Function.iterate_succ_apply', ← ih, rv_move_up_comp]

/-- For a positive count the batched row move down equals the iterated
single row move down. -/
theorem rv_move_down_batch (n : Nat) (h : 1 ≤ n) (rv : ResultsViewer) :
    ResultsViewer.move_down n rv = (ResultsViewer.move_down 1)^[n] rv := by
  induction n, h using Nat.le_induction with
  | base => rw [Function.iterate_one]
  | succ m hm ih => rw [Function.iterate_succ_apply', ← ih, rv_move_down_comp]

/-- C3: for every pane, every Results sub-mode configuration and every
count n at least 1, dispatching MoveUp(n), MoveDown(n), MoveLeft(n) or
MoveRight(n) through the command dispatcher yields exactly the state of
dispatching the corresponding count-one command n times in sequence (and
both report success), so the count is observably never batched into one
larger jump. -/
theorem C3_move_count_equiv (env : Env) (s : App) (d : MoveDir) (n : Nat)
    (h : 1 ≤ n) :
    s.execute_vim_command env (mkMove d n) = ((moveStep env d)^[n] s, true) := by
  cases d with
  | up =>
    cases hp : s.active_pane with
    | DatabaseBrowser =>
      have key := iterate_congr_of_inv (moveStep env MoveDir.up)
        (fun t : App =>
          { t with database_browser := DatabaseBrowser.move_up t.database_browser })
        (fun t : App => t.active_pane = Pane.DatabaseBrowser)
        (fun t ht => ht)
        (fun t ht => by
          dsimp only
          simp [moveStep, mkMove, App.execute_vim_command, ht, Function.iterate_one])
        n s hp
      rw [key, iterate_db_lift DatabaseBrowser.move_up n]
      simp [App.execute_vim_command, mkMove, hp]
    | QueryEditor =>
      have key := iterate_congr_of_inv (moveStep env MoveDir.up)
        (fun t : App =>
          { t with query_editor := QueryEditor.move_up_step t.query_editor })
        (fun t : App => t.active_pane = Pane.QueryEditor)
        (fun t ht => ht)
        (fun t ht => by
          dsimp only
          simp [moveStep, mkMove, App.execute_vim_command, ht, QueryEditor.move_up,
            Function.iterate_one])
        n s hp
      rw [key, iterate_qe_lift QueryEditor.move_up_step n]
      simp [App.execute_vim_command, mkMove, hp, QueryEditor.move_up]
    | Results =>
      by_cases ht : s.results_viewer.active_tab = TabMode.Schema
      · have key := iterate_congr_of_inv (moveStep env MoveDir.up)
          (fun t : App =>
            { t with results_viewer := ResultsViewer.schema_move_up t.results_viewer })
          (fun t : App => t.active_pane = Pane.Results ∧
            t.results_viewer.active_tab = TabMode.Schema)
          (fun t h3 => ⟨h3.1, by dsimp only; rw [schema_up_tab]; exact h3.2⟩)
          (fun t h3 => by
            dsimp only
            simp [moveStep, mkMove, App.execute_vim_command, h3.1, h3.2,
              Function.iterate_one])
          n s ⟨hp, ht⟩
        rw [key, iterate_rv_lift ResultsViewer.schema_move_up n]
        simp [App.execute_vim_command, mkMove, hp, ht]
      · have key := iterate_congr_of_inv (moveStep env MoveDir.up)
          (fun t : App =>
            { t with results_viewer := ResultsViewer.move_up 1 t.results_viewer })
          (fun t : App => t.active_pane = Pane.Results ∧
            ¬(t.results_viewer.active_tab = TabMode.Schema))
          (fun t h3 => ⟨h3.1, by dsimp only; rw [rv_move_up_tab]; exact h3.2⟩)
          (fun t h3 => by
            dsimp only
            simp [moveStep, mkMove, App.execute_vim_command, h3.1, h3.2])
          n s ⟨hp, ht⟩
        rw [key, iterate_rv_lift (ResultsViewer.move_up 1) n, ← rv_move_up_batch n h]
        simp [App.execute_vim_command, mkMove, hp, ht]
  | down =>
    cases hp : s.active_pane with
    | DatabaseBrowser =>
      have key := iterate_congr_of_inv (moveStep env MoveDir.down)
        (fun t : App =>
          { t with database_browser := DatabaseBrowser.move_down t.database_browser })
        (fun t : App => t.active_pane = Pane.DatabaseBrowser)
        (fun t ht => ht)
        (fun t ht => by
          dsimp only
          simp [moveStep, mkMove, App.execute_vim_command, ht, Function.iterate_one])
        n s hp
      rw [key, iterate_db_lift DatabaseBrowser.move_down n]
      simp [App.execute_vim_command, mkMove, hp]
    | QueryEditor =>
      have key := iterate_congr_of_inv (moveStep env MoveDir.down)
        (fun t : App =>
          { t with query_editor := QueryEditor.move_down_step t.query_editor })
        (fun t : App => t.active_pane = Pane.QueryEditor)
        (fun t ht => ht)
        (fun t ht => by
          dsimp only
          simp [moveStep, mkMove, App.execute_vim_command, ht, QueryEditor.move_down,
            Function.iterate_one])
        n s hp
      rw [key, iterate_qe_lift QueryEditor.move_down_step n]
      simp [App.execute_vim_command, mkMove, hp, QueryEditor.move_down]
    | Results =>
      by_cases ht : s.results_viewer.active_tab = TabMode.Schema
      · have key := iterate_congr_of_inv (moveStep env MoveDir.down)
          (fun t : App =>
            { t with results_viewer := ResultsViewer.schema_move_down t.results_viewer })
          (fun t : App => t.active_pane = Pane.Results ∧
            t.results_viewer.active_tab = TabMode.Schema)
          (fun t h3 => ⟨h3.1, by dsimp only; rw [schema_down_tab]; exact h3.2⟩)
          (fun t h3 => by
            dsimp only
            simp [moveStep, mkMove, App.execute_vim_command, h3.1, h3.2,
              Function.iterate_one])
          n s ⟨hp, ht⟩
        rw [key, iterate_rv_lift ResultsViewer.schema_move_down n]
        simp [App.execute_vim_command, mkMove, hp, ht]
      · have key := iterate_congr_of_inv (moveStep env MoveDir.down)
          (fun t : App =>
            { t with results_viewer := ResultsViewer.move_down 1 t.results_viewer })
          (fun t : App => t.active_pane = Pane.Results ∧
            ¬(t.results_viewer.active_tab = TabMode.Schema))
          (fun t h3 => ⟨h3.1, by dsimp only; rw [rv_move_down_tab]; exact h3.2⟩)
          (fun t h3 => by
            dsimp only
            simp [moveStep, mkMove, App.execute_vim_command, h3.1, h3.2])
          n s ⟨hp, ht⟩
        rw [key, iterate_rv_lift (ResultsViewer.move_down 1) n,
          ← rv_move_down_batch n h]
        simp [App.execute_vim_command, mkMove, hp, ht]
  | left =>
    cases hp : s.active_pane with
    | DatabaseBrowser =>
      have key := iterate_congr_of_inv (moveStep env MoveDir.left) id
        (fun t : App => t.active_pane = Pane.DatabaseBrowser)
        (fun t ht => ht)
        (fun t ht => by
          simp [moveStep, mkMove, App.execute_vim_command, ht])
        n s hp
      rw [key]
      simp [App.execute_vim_command, mkMove, hp, Function.iterate_id]
    | QueryEditor =>
      have key := iterate_congr_of_inv (moveStep env MoveDir.left)
        (fun t : App =>
          { t with query_editor := QueryEditor.move_left_step t.query_editor })
        (fun t : App => t.active_pane = Pane.QueryEditor)
        (fun t ht => ht)
        (fun t ht => by
          dsimp only
          simp [moveStep, mkMove, App.execute_vim_command, ht, QueryEditor.move_left,
            Function.iterate_one])
        n s hp
      rw [key, iterate_qe_lift QueryEditor.move_left_step n]
      simp [App.execute_vim_command, mkMove, hp, QueryEditor.move_left]
    | Results =>
      by_cases he : s.results_viewer.edit_mode = true
      · have key := iterate_congr_of_inv (moveStep env MoveDir.left)
          (fun t : App =>
            { t with results_viewer := ResultsViewer.edit_left_step t.results_viewer })
          (fun t : App => t.active_pane = Pane.Results ∧
            t.results_viewer.edit_mode = true)
          (fun t h3 => ⟨h3.1, by dsimp only; rw [edit_left_step_edit]; exact h3.2⟩)
          (fun t h3 => by
            dsimp only
            simp [moveStep, mkMove, App.execute_vim_command, h3.1, h3.2,
              Function.iterate_one])
          n s ⟨hp, he⟩
        rw [key, iterate_rv_lift ResultsViewer.edit_left_step n]
        simp [App.execute_vim_command, mkMove, hp, he]
      · have he' : s.results_viewer.edit_mode = false := by
          revert he; cases s.results_viewer.edit_mode <;> simp
        by_cases hi : s.results_viewer.insert_mode = true
        · have key := iterate_congr_of_inv (moveStep env MoveDir.left)
            (fun t : App =>
              { t with
                results_viewer := ResultsViewer.insert_left_step t.results_viewer })
            (fun t : App => t.active_pane = Pane.Results ∧
              t.results_viewer.edit_mode = false ∧
              t.results_viewer.insert_mode = true)
            (fun t h3 =>
              ⟨h3.1, by dsimp only; rw [insert_left_step_edit]; exact h3.2.1,
                by dsimp only; rw [insert_left_step_insert]; exact h3.2.2⟩)
            (fun t h3 => by
              dsimp only
              simp [moveStep, mkMove, App.execute_vim_command, h3.1, h3.2.1, h3.2.2,
                Function.iterate_one])
            n s ⟨hp, he', hi⟩
          rw [key, iterate_rv_lift ResultsViewer.insert_left_step n]
          simp [App.execute_vim_command, mkMove, hp, he', hi]
        · have hi' : s.results_viewer.insert_mode = false := by
            revert hi; cases s.results_viewer.insert_mode <;> simp
          have key := iterate_congr_of_inv (moveStep env MoveDir.left)
            (fun t : App =>
              { t with
                results_viewer := ResultsViewer.move_column_left t.results_viewer })
            (fun t : App => t.active_pane = Pane.Results ∧
              t.results_viewer.edit_mode = false ∧
              t.results_viewer.insert_mode = false)
            (fun t h3 =>
              ⟨h3.1, by dsimp only; rw [mcl_edit]; exact h3.2.1,
                by dsimp only; rw [mcl_insert]; exact h3.2.2⟩)
            (fun t h3 => by
              dsimp only
              simp [moveStep, mkMove, App.execute_vim_command, h3.1, h3.2.1, h3.2.2,
                Function.iterate_one])
            n s ⟨hp, he', hi'⟩
          rw [key, iterate_rv_lift ResultsViewer.move_column_left n]
          simp [App.execute_vim_command, mkMove, hp, he', hi']
  | right =>
    cases hp : s.active_pane with
    | DatabaseBrowser =>
      have key := iterate_congr_of_inv (moveStep env MoveDir.right) id
        (fun t : App => t.active_pane = Pane.DatabaseBrowser)
        (fun t ht => ht)
        (fun t ht => by
          simp [moveStep, mkMove, App.execute_vim_command, ht])
        n s hp
      rw [key]
      simp [App.execute_vim_command, mkMove, hp, Function.iterate_id]
    | QueryEditor =>
      have key := iterate_congr_of_inv (moveStep env MoveDir.right)
        (fun t : App =>
          { t with query_editor := QueryEditor.move_right_step t.query_editor })
        (fun t : App => t.active_pane = Pane.QueryEditor)
        (fun t ht => ht)
        (fun t ht => by
          dsimp only
          simp [moveStep, mkMove, App.execute_vim_command, ht, QueryEditor.move_right,
            Function.iterate_one])
        n s hp
      rw [key, iterate_qe_lift QueryEditor.move_right_step n]
      simp [App.execute_vim_command, mkMove, hp, QueryEditor.move_right]
    | Results =>
      by_cases he : s.results_viewer.edit_mode = true
      · have key := iterate_congr_of_inv (moveStep env MoveDir.right)
          (fun t : App =>
            { t with results_viewer := ResultsViewer.edit_right_step t.results_viewer })
          (fun t : App => t.active_pane = Pane.Results ∧
            t.results_viewer.edit_mode = true)
          (fun t h3 => ⟨h3.1, by dsimp only; rw [edit_right_step_edit]; exact h3.2⟩)
          (fun t h3 => by
            dsimp only
            simp [moveStep, mkMove, App.execute_vim_command, h3.1, h3.2,
              Function.iterate_one])
          n s ⟨hp, he⟩
        rw [key, iterate_rv_lift ResultsViewer.edit_right_step n]
        simp [App.execute_vim_command, mkMove, hp, he]
      · have he' : s.results_viewer.edit_mode = false := by
          revert he; cases s.results_viewer.edit_mode <;> simp
        by_cases hi : s.results_viewer.insert_mode = true
        · have key := iterate_congr_of_inv (moveStep env MoveDir.right)
            (fun t : App =>
              { t with
                results_viewer := ResultsViewer.insert_right_step t.results_viewer })
            (fun t : App => t.active_pane = Pane.Results ∧
              t.results_viewer.edit_mode = false ∧
              t.results_viewer.insert_mode = true)
            (fun t h3 =>
              ⟨h3.1, by dsimp only; rw [insert_right_step_edit]; exact h3.2.1,
                by dsimp only; rw [insert_right_step_insert]; exact h3.2.2⟩)
            (fun t h3 => by
              dsimp only
              simp [moveStep, mkMove, App.execute_vim_command, h3.1, h3.2.1, h3.2.2,
                Function.iterate_one])
            n s ⟨hp, he', hi⟩
          rw [key, iterate_rv_lift ResultsViewer.insert_right_step n]
          simp [App.execute_vim_command, mkMove, hp, he', hi]
        · have hi' : s.results_viewer.insert_mode = false := by
            revert hi; cases s.results_viewer.insert_mode <;> simp
          have key := iterate_congr_of_inv (moveStep env MoveDir.right)
            (fun t : App =>
              { t with
                results_viewer := ResultsViewer.move_column_right t.results_viewer })
            (fun t : App => t.active_pane = Pane.Results ∧
              t.results_viewer.edit_mode = false ∧
              t.results_viewer.insert_mode = false)
            (fun t h3 =>
              ⟨h3.1, by dsimp only; rw [mcr_edit]; exact h3.2.1,
                by dsimp only; rw [mcr_insert]; exact h3.2.2⟩)
            (fun t h3 => by
              dsimp only
              simp [moveStep, mkMove, App.execute_vim_command, h3.1, h3.2.1, h3.2.2,
                Function.iterate_one])
            n s ⟨hp, he', hi'⟩
          rw [key, iterate_rv_lift ResultsViewer.move_column_right n]
          simp [App.execute_vim_command, mkMove, hp, he', hi']

/-- C3 witness: in the Results pane on the data tab, MoveDown with count
3 equals three sequential count-one MoveDown dispatches. -/
theorem C3_move_count_equiv_witness :
    1 ≤ 3 ∧
      fixtureApp.execute_vim_command trivEnv (mkMove MoveDir.down 3) =
        ((moveStep trivEnv MoveDir.down)^[3] fixtureApp, true) :=
  ⟨by decide, C3_move_count_equiv trivEnv fixtureApp MoveDir.down 3 (by decide)⟩

end MoveTheorems

end TuiDb
